import Mathlib

/-!
Shallow embedding of the Crossy-Road-style lane-crossing game (`src/main.py`)
and verification of the frozen specification claims.

Continuous quantities (pixel positions, timers, speeds) are Python floats in
the source; they are modelled exactly as rationals `ℚ`.  Python decimal
literals such as `0.60` or `1.1` elaborate to the exact rationals here.

The shared seeded random generator (`random.Random`) is modelled as an
abstract state type `R` together with a `RandomSource R` record providing the
primitive draws the program performs (`choice`, `uniform`, `randint`,
`randrange`, `shuffle`, `random`), each threading the state, plus the range
contracts that Python's generator guarantees.  Quantifying theorems over all
`RandomSource` instances captures "for every seed".
-/

namespace Crossy

/-! ### Configuration constants (from the `Config` section of `main.py`) -/

def TILE : ℚ := 48
def GRID_W : ℤ := 11
def SCREEN_W : ℚ := (GRID_W : ℚ) * TILE
def SCREEN_H : ℚ := 14 * TILE
def START_SAFE_ROWS : ℤ := 6
def LANE_LOOKAHEAD : ℤ := 55
def CAR_SPEED_MIN : ℚ := 120
def CAR_SPEED_MAX : ℚ := 170
def LOG_SPEED_MIN : ℚ := 90
def LOG_SPEED_MAX : ℚ := 130
def TRAIN_SPEED : ℚ := 600
def CAR_SPAWN_MIN : ℚ := 1.00
def CAR_SPAWN_MAX : ℚ := 1.60
def LOG_SPAWN_MIN : ℚ := 1.10
def LOG_SPAWN_MAX : ℚ := 1.70
def TRAIN_INTERVAL_MIN : ℚ := 6.0
def TRAIN_INTERVAL_MAX : ℚ := 10.0
def TRAIN_WARNING_TIME : ℚ := 1.1
def MIN_GAP : ℚ := TILE * 0.75
def LOG_DIP_DURATION : ℚ := 0.18

/-! ### Random source abstraction -/

/-- Abstract interface for the shared seeded `random.Random` stream.  Each
primitive consumes generator state and returns the drawn value plus the new
state.  The `*_mem` fields are the range guarantees of Python's generator. -/
structure RandomSource (R : Type) where
  choiceInt : List ℤ → R → ℤ × R
  uniform : ℚ → ℚ → R → ℚ × R
  randint : ℤ → ℤ → R → ℤ × R
  randrange : ℤ → R → ℤ × R
  shuffleInt : List ℤ → R → List ℤ × R
  randFloat : R → ℚ × R
  choiceInt_mem : ∀ l r, l ≠ [] → (choiceInt l r).1 ∈ l
  uniform_mem : ∀ a b r, a ≤ b → a ≤ (uniform a b r).1 ∧ (uniform a b r).1 ≤ b
  randint_mem : ∀ a b r, a ≤ b → a ≤ (randint a b r).1 ∧ (randint a b r).1 ≤ b
  randrange_mem : ∀ n r, 0 < n → 0 ≤ (randrange n r).1 ∧ (randrange n r).1 < n
  shuffleInt_perm : ∀ l r, List.Perm ((shuffleInt l r).1) l
  randFloat_mem : ∀ r, 0 ≤ (randFloat r).1 ∧ (randFloat r).1 < 1

/-- Stateless concrete source: every choice takes the first element, every
continuous draw takes the lower end of its range.  Used to instantiate
universally quantified theorems at a concrete input. -/
def headSource : RandomSource Unit where
  choiceInt l _ := (l.headD 0, ())
  uniform a _ _ := (a, ())
  randint a _ _ := (a, ())
  randrange _ _ := (0, ())
  shuffleInt l _ := (l, ())
  randFloat _ := (0, ())
  choiceInt_mem l r h := by cases l with
    | nil => exact absurd rfl h
    | cons a t => exact List.mem_cons_self a t
  uniform_mem a b r h := ⟨le_refl a, h⟩
  randint_mem a b r h := ⟨le_refl a, h⟩
  randrange_mem n r h := ⟨le_refl 0, h⟩
  shuffleInt_perm l r := List.Perm.refl l
  randFloat_mem r := ⟨le_refl 0, by norm_num⟩

/-- Stateless concrete source that picks the last element of a list on
`choice` and otherwise behaves like `headSource`. -/
def lastSource : RandomSource Unit where
  choiceInt l _ := (l.reverse.headD 0, ())
  uniform a _ _ := (a, ())
  randint a _ _ := (a, ())
  randrange _ _ := (0, ())
  shuffleInt l _ := (l, ())
  randFloat _ := (0, ())
  choiceInt_mem l r h := by
    have hr : l.reverse ≠ [] := by simpa using h
    have : l.reverse.headD 0 ∈ l.reverse := by
      cases hrv : l.reverse with
      | nil => exact absurd hrv hr
      | cons a t => simp
    simpa using (List.mem_reverse.mp this)
  uniform_mem a b r h := ⟨le_refl a, h⟩
  randint_mem a b r h := ⟨le_refl a, h⟩
  randrange_mem n r h := ⟨le_refl 0, h⟩
  shuffleInt_perm l r := List.Perm.refl l
  randFloat_mem r := ⟨le_refl 0, by norm_num⟩

/-! ### Difficulty curve -/

/-- `difficulty(score)` from `main.py`: multiplier applied to scroll speed,
obstacle speeds and spawn frequency. -/
def difficulty (score : ℤ) : ℚ :=
  if score ≤ 0 then 0.60
  else if score < 20 then 0.60 + ((score : ℚ) / 20) * (1.00 - 0.60)
  else if score < 80 then 1.00 + (((score : ℚ) - 20) / 60) * (1.45 - 1.00)
  else 1.45

/-- The difficulty curve exactly as the specification words it (piecewise
definition used for the refinement claim C2). -/
def difficultySpec (score : ℤ) : ℚ :=
  if score ≤ 0 then 0.60
  else if 0 < score ∧ score < 20 then 0.60 + ((score : ℚ) / 20) * 0.40
  else if 20 ≤ score ∧ score < 80 then 1.00 + (((score : ℚ) - 20) / 60) * 0.45
  else 1.45

/-! ### Obstacles and lanes -/

/-- A moving axis-aligned obstacle: left edge `x`, width `w`, fixed base speed
and direction (`+1` right, `-1` left). -/
structure Obstacle where
  x : ℚ
  w : ℚ
  base_speed : ℚ
  dir : ℤ
deriving DecidableEq

/-- One tick of obstacle movement (`Obstacle.update`):
`x += dir * (base_speed * speed_mult) * dt`. -/
def moveOb (dt speed_mult : ℚ) (ob : Obstacle) : Obstacle :=
  { ob with x := ob.x + (ob.dir : ℚ) * (ob.base_speed * speed_mult) * dt }

inductive LaneType where
  | grass
  | road
  | river
  | rail
deriving DecidableEq

/-- One horizontal lane at integer row (the fields of `Lane.__init__`). -/
structure Lane where
  row : ℤ
  type : LaneType
  obstacles : List Obstacle
  blocked_cols : Finset ℤ
  direction : ℤ
  spawn_timer : ℚ
  base_spawn_interval : ℚ
  base_speed : ℚ
  train_timer : ℚ
  train_warning : ℚ
  train_active : Bool
  train_x : ℚ
  train_dir : ℤ
deriving DecidableEq

instance : Inhabited Lane :=
  ⟨{ row := 0, type := LaneType.grass, obstacles := [], blocked_cols := ∅,
     direction := 1, spawn_timer := 0, base_spawn_interval := 1, base_speed := 0,
     train_timer := 0, train_warning := 0, train_active := false, train_x := 0,
     train_dir := 1 }⟩

/-- Integer interval `[a, b)` as a list, the analogue of Python `range(a, b)`. -/
def intRange (a b : ℤ) : List ℤ :=
  (List.range (b - a).toNat).map (fun n : ℕ => a + (n : ℤ))

/-- Columns `0 .. GRID_W-1` as a list (`range(GRID_W)`). -/
def gridList : List ℤ := intRange 0 GRID_W

/-- Columns `0 .. GRID_W-1` as a set (`set(range(GRID_W))`). -/
def gridRange : Finset ℤ := gridList.toFinset

def Lane.is_blocked (lane : Lane) (col : ℤ) : Bool :=
  decide (col ∈ lane.blocked_cols)

/-- `Lane.open_cols`: all columns for non-grass lanes, unblocked columns for
grass lanes. -/
def Lane.open_cols (lane : Lane) : Finset ℤ :=
  if lane.type ≠ LaneType.grass then gridRange
  else gridRange \ lane.blocked_cols

/-! ### Grass corridor logic (`Lane._init_grass`) -/

/-- The fixed corridor of the safe zone: a centered three-cell corridor. -/
def safeCorridor : Finset ℤ :=
  { max 0 (GRID_W / 2 - 1), GRID_W / 2, min (GRID_W - 1) (GRID_W / 2 + 1) }

/-- Corridor cells for a drawn center and width: the cells
`center + dx` for `dx in range(-(cw // 2), cw // 2 + 1)`, clamped to the grid. -/
def grassCorridor (center cw : ℤ) : Finset ℤ :=
  ((intRange (-(cw / 2)) (cw / 2 + 1)).map
    (fun dx => max 0 (min (GRID_W - 1) (center + dx)))).toFinset

/-- The tree-placement loop of `_init_grass` beyond the safe zone: add
candidate columns until the target count is reached, stopping early whenever
another tree would leave fewer than 3 open columns. -/
def addTrees (target : ℤ) : List ℤ → Finset ℤ → Finset ℤ
  | [], b => b
  | c :: cs, b =>
    if target ≤ (b.card : ℤ) then b
    else if GRID_W - ((b.card : ℤ) + 1) < 3 then b
    else addTrees target cs (insert c b)

/-- Corridor-center draw beyond the safe zone: a random member of the previous
row's open columns when that set is truthy and nonempty, otherwise
`randrange(GRID_W)`. -/
def grassCenterDraw {R : Type} (src : RandomSource R)
    (prevOpen : Option (Finset ℤ)) (r : R) : ℤ × R :=
  match prevOpen with
  | some s => if s.Nonempty then src.choiceInt (s.sort (· ≤ ·)) r
              else src.randrange GRID_W r
  | none => src.randrange GRID_W r

/-- `Lane._init_grass`: returns the blocked-column set. -/
def initGrass {R : Type} (src : RandomSource R) (row : ℤ)
    (prevOpen : Option (Finset ℤ)) (r : R) : Finset ℤ × R :=
  if row < START_SAFE_ROWS then
    let t := src.randint 0 2 r
    let cands := src.shuffleInt (gridList.filter (fun c => c ∉ safeCorridor)) t.2
    (((cands.1.take t.1.toNat).toFinset : Finset ℤ), cands.2)
  else
    let c := grassCenterDraw src prevOpen r
    let cw := src.choiceInt [2, 3] c.2
    let t := src.randint 2 5 cw.2
    let corridor := grassCorridor c.1 cw.1
    let cands := src.shuffleInt (gridList.filter (fun col => col ∉ corridor)) t.2
    (addTrees t.1 cands.1 ∅ \ corridor, cands.2)

/-! ### Road/river spawning and the no-overlap pass -/

/-- Smallest left edge among the obstacles (`min(self.obstacles, key x).x`). -/
def minLead : List Obstacle → ℚ
  | [] => 0
  | o :: os => os.foldl (fun m ob => min m ob.x) o.x

/-- Largest right edge among the obstacles
(`max(self.obstacles, key x+w)` evaluated at `x + w`). -/
def maxTrail : List Obstacle → ℚ
  | [] => 0
  | o :: os => os.foldl (fun m ob => max m (ob.x + ob.w)) (o.x + o.w)

/-- `Lane._edge_spawn_x`: windward off-screen spawn abscissa. -/
def edgeSpawnX {R : Type} (src : RandomSource R) (lane : Lane) (w : ℚ)
    (r : R) : ℚ × R :=
  if lane.direction = 1 then
    let u := src.uniform 0 (TILE * 2) r
    (-w - u.1, u.2)
  else
    let u := src.uniform 0 (TILE * 2) r
    (SCREEN_W + u.1, u.2)

/-- `Lane._can_spawn_with_gap`. -/
def canSpawnWithGap (lane : Lane) (x w : ℚ) : Bool :=
  lane.obstacles.isEmpty ||
    (if lane.direction = 1 then decide (x + w ≤ minLead lane.obstacles - MIN_GAP)
     else decide (maxTrail lane.obstacles + MIN_GAP ≤ x))

/-- `Lane.spawn_obstacle`: road lanes spawn single-tile cars, river lanes
spawn logs of 2 or 3 tiles (weighted toward 2); the spawn is silently dropped
when it would violate the minimum gap. -/
def spawnObstacle {R : Type} (src : RandomSource R) (lane : Lane) (r : R) :
    Lane × R :=
  match lane.type with
  | LaneType.road =>
    let w : ℚ := 1 * TILE
    let e := edgeSpawnX src lane w r
    if canSpawnWithGap lane e.1 w then
      ({ lane with obstacles := lane.obstacles ++
          [{ x := e.1, w := w, base_speed := lane.base_speed,
             dir := lane.direction }] }, e.2)
    else (lane, e.2)
  | LaneType.river =>
    let wt := src.choiceInt [2, 2, 3] r
    let w : ℚ := (wt.1 : ℚ) * TILE
    let e := edgeSpawnX src lane w wt.2
    if canSpawnWithGap lane e.1 w then
      ({ lane with obstacles := lane.obstacles ++
          [{ x := e.1, w := w, base_speed := lane.base_speed,
             dir := lane.direction }] }, e.2)
    else (lane, e.2)
  | _ => (lane, r)

/-- `Lane._seed_obstacles`: spawn `count` times. -/
def seedObstacles {R : Type} (src : RandomSource R) :
    ℕ → Lane → R → Lane × R
  | 0, lane, r => (lane, r)
  | n + 1, lane, r =>
    let s := spawnObstacle src lane r
    seedObstacles src n s.1 s.2

/-- The forward-pushing pass of `_enforce_no_overlap` over the sorted list:
each obstacle that sits within `MIN_GAP` of its predecessor is pushed to
`prev.x + prev.w + MIN_GAP`. -/
def pushChain : Obstacle → List Obstacle → List Obstacle
  | prev, [] => [prev]
  | prev, cur :: rest =>
    prev :: pushChain
      (if cur.x < prev.x + prev.w + MIN_GAP
       then { cur with x := prev.x + prev.w + MIN_GAP } else cur) rest

/-- `Lane._enforce_no_overlap`: sort by position, then push followers forward
to maintain the minimum gap. -/
def enforceNoOverlap (l : List Obstacle) : List Obstacle :=
  if l.length ≤ 1 then l
  else
    match l.mergeSort (fun a b => decide (a.x ≤ b.x)) with
    | [] => []
    | a :: rest => pushChain a rest

/-! ### Train logic -/

/-- `Lane.spawn_train`: activate the train far off-screen on the windward
side of the lane's current train direction. -/
def spawnTrain (lane : Lane) : Lane :=
  { lane with
    train_active := true
    train_warning := 0
    train_x := if lane.train_dir = 1 then -(TILE * 12) else SCREEN_W + TILE * 12 }

/-- `Lane._finish_train`: deactivate, re-roll the countdown as a fresh base
interval divided by difficulty, and flip the direction with probability 1/2. -/
def finishTrain {R : Type} (src : RandomSource R) (lane : Lane) (diff : ℚ)
    (r : R) : Lane × R :=
  let b := src.uniform TRAIN_INTERVAL_MIN TRAIN_INTERVAL_MAX r
  let f := src.randFloat b.2
  let l := { lane with train_active := false, train_timer := b.1 / diff }
  (if f.1 < 1/2 then { l with train_dir := -l.train_dir } else l, f.2)

/-! ### Lane construction and per-tick update -/

/-- `Lane.__init__`. -/
def Lane.init {R : Type} (src : RandomSource R) (row : ℤ) (ty : LaneType)
    (prevOpen : Option (Finset ℤ)) (r : R) : Lane × R :=
  let d := src.choiceInt [-1, 1] r
  let tt := src.uniform TRAIN_INTERVAL_MIN TRAIN_INTERVAL_MAX d.2
  let td := src.choiceInt [-1, 1] tt.2
  let base : Lane :=
    { row := row, type := ty, obstacles := [], blocked_cols := ∅,
      direction := d.1, spawn_timer := 0, base_spawn_interval := 1,
      base_speed := 0, train_timer := tt.1, train_warning := 0,
      train_active := false, train_x := 0, train_dir := td.1 }
  match ty with
  | LaneType.grass =>
    let g := initGrass src row prevOpen td.2
    ({ base with blocked_cols := g.1 }, g.2)
  | LaneType.road =>
    let si := src.uniform CAR_SPAWN_MIN CAR_SPAWN_MAX td.2
    let bs := src.uniform CAR_SPEED_MIN CAR_SPEED_MAX si.2
    let cnt := src.choiceInt [1, 1, 2] bs.2
    seedObstacles src cnt.1.toNat
      { base with base_spawn_interval := si.1, base_speed := bs.1 } cnt.2
  | LaneType.river =>
    let si := src.uniform LOG_SPAWN_MIN LOG_SPAWN_MAX td.2
    let bs := src.uniform LOG_SPEED_MIN LOG_SPEED_MAX si.2
    let cnt := src.choiceInt [1, 2] bs.2
    seedObstacles src cnt.1.toNat
      { base with base_spawn_interval := si.1, base_speed := bs.1 } cnt.2
  | LaneType.rail =>
    let t2 := src.uniform TRAIN_INTERVAL_MIN TRAIN_INTERVAL_MAX td.2
    ({ base with train_timer := t2.1 }, t2.2)

/-- The warning-timer decay block at the end of the rail branch of
`Lane.update`. -/
def warnDecay (lane : Lane) (dt : ℚ) : Lane :=
  if 0 < lane.train_warning then
    { lane with train_warning :=
        if lane.train_warning - dt < 0 then 0 else lane.train_warning - dt }
  else lane

/-- The idle (not-active) rail branch of `Lane.update`: countdown decrement,
warning arming, train spawn, then the warning-decay block. -/
def stepRailIdle (lane : Lane) (dt : ℚ) : Lane :=
  let t := lane.train_timer - dt
  let wv := if t ≤ TRAIN_WARNING_TIME ∧ lane.train_warning ≤ 0
            then TRAIN_WARNING_TIME else lane.train_warning
  let l2 := if t ≤ 0 then spawnTrain { lane with train_timer := t, train_warning := wv }
            else { lane with train_timer := t, train_warning := wv }
  warnDecay l2 dt

/-- The active rail branch of `Lane.update`: advance the train, finish it
past the far margin, then the warning-decay block. -/
def stepRailActive {R : Type} (src : RandomSource R) (lane : Lane)
    (dt diff : ℚ) (r : R) : Lane × R :=
  let tx := lane.train_x + (lane.train_dir : ℚ) * (TRAIN_SPEED * diff) * dt
  let l := { lane with train_x := tx }
  let l2r :=
    if lane.train_dir = 1 ∧ SCREEN_W + TILE * 8 < tx then finishTrain src l diff r
    else if lane.train_dir = -1 ∧ tx < -(TILE * 12) then finishTrain src l diff r
    else (l, r)
  (warnDecay l2r.1 dt, l2r.2)

/-- The movement-and-culling prefix of `Lane.update`. -/
def cullObstacles (lane : Lane) (dt diff : ℚ) : Lane :=
  { lane with
    obstacles := (lane.obstacles.map (moveOb dt diff)).filter
      (fun ob => decide (-(TILE * 5) < ob.x + ob.w) &&
        decide (ob.x < SCREEN_W + TILE * 5)) }

/-- `Lane.update`: move obstacles, cull off-screen ones, run the spawn timer
and the no-overlap pass (road/river), and the train state machine (rail; the
source runs the warning-decay block once after either rail sub-branch, which
is equivalent to running it at the end of each sub-branch as here). -/
def Lane.update {R : Type} (src : RandomSource R) (lane : Lane)
    (dt diff : ℚ) (r : R) : Lane × R :=
  let lane := cullObstacles lane dt diff
  if lane.type = LaneType.road ∨ lane.type = LaneType.river then
    let actual := lane.base_spawn_interval / diff
    let st := lane.spawn_timer + dt
    let s :=
      if actual ≤ st then
        let ni := if lane.type = LaneType.road
                  then src.uniform CAR_SPAWN_MIN CAR_SPAWN_MAX r
                  else src.uniform LOG_SPAWN_MIN LOG_SPAWN_MAX r
        spawnObstacle src
          { lane with spawn_timer := 0, base_spawn_interval := ni.1 } ni.2
      else ({ lane with spawn_timer := st }, r)
    ({ s.1 with obstacles := enforceNoOverlap s.1.obstacles }, s.2)
  else if lane.type = LaneType.rail then
    if lane.train_active = false then (stepRailIdle lane dt, r)
    else stepRailActive src lane dt diff r
  else (lane, r)

/-! ### World -/

/-- Sparse row-indexed lane map plus the highest generated row.  The Python
dict is modelled as a function `ℤ → Option Lane`. -/
structure World where
  lanes : ℤ → Option Lane
  max_generated_row : ℤ

/-- `World._choose_next_lane_type`: weighted draw damping three-in-a-row
streaks of the same hazard kind. -/
def chooseNextLaneType {R : Type} (src : RandomSource R) (w : World)
    (row : ℤ) (r : R) : LaneType × R :=
  let recent := ([1, 2, 3] : List ℤ).filterMap
    (fun i => Option.map Lane.type (w.lanes (row - i)))
  let river_streak := (recent.filter (fun t => t = LaneType.river)).length
  let rail_streak := (recent.filter (fun t => t = LaneType.rail)).length
  let road_streak := (recent.filter (fun t => t = LaneType.road)).length
  let weights : List (LaneType × ℚ) :=
    if 2 ≤ river_streak then
      [(LaneType.grass, 7), (LaneType.road, 5), (LaneType.rail, 5), (LaneType.river, 2)]
    else if 2 ≤ rail_streak then
      [(LaneType.grass, 7), (LaneType.road, 5), (LaneType.river, 5), (LaneType.rail, 2)]
    else if 2 ≤ road_streak then
      [(LaneType.grass, 7), (LaneType.river, 5), (LaneType.rail, 5), (LaneType.road, 2)]
    else
      [(LaneType.grass, 6), (LaneType.road, 5), (LaneType.river, 5), (LaneType.rail, 5)]
  let total := (weights.map Prod.snd).sum
  let p := src.uniform 0 total r
  (weightWalk p.1 0 weights, p.2)
where
  /-- The accumulator walk of `_choose_next_lane_type` (falls back to grass). -/
  weightWalk (pick acc : ℚ) : List (LaneType × ℚ) → LaneType
    | [] => LaneType.grass
    | (t, wt) :: rest =>
      if pick ≤ acc + wt then t else weightWalk pick (acc + wt) rest

/-- `World._ensure_lane`: create the lane for `row` if absent. -/
def ensureLane {R : Type} (src : RandomSource R) (w : World) (row : ℤ)
    (forced : Option LaneType) (prevOpen : Option (Finset ℤ)) (r : R) :
    World × R :=
  match w.lanes row with
  | some _ => (w, r)
  | none =>
    let tr : LaneType × R :=
      match forced with
      | some t => (t, r)
      | none => chooseNextLaneType src w row r
    let lr := Lane.init src row tr.1 prevOpen tr.2
    ({ lanes := fun k => if k = row then some lr.1 else w.lanes k,
       max_generated_row := max w.max_generated_row row }, lr.2)

/-- The loop body of `World._generate_up_to`: ensure each listed row in
order, feeding each lane the open-column set of the row below it. -/
def generateRows {R : Type} (src : RandomSource R) :
    List ℤ → World → R → World × R
  | [], w, r => (w, r)
  | row :: rest, w, r =>
    let po : Finset ℤ :=
      match w.lanes (row - 1) with
      | some l => l.open_cols
      | none => gridRange
    let e := ensureLane src w row none (some po) r
    generateRows src rest e.1 e.2

/-- `World._generate_up_to`. -/
def generateUpTo {R : Type} (src : RandomSource R) (w : World) (target : ℤ)
    (r : R) : World × R :=
  generateRows src (intRange (w.max_generated_row + 1) (target + 1)) w r

/-- The lane-update window loop of `World.update`. -/
def updateWindow {R : Type} (src : RandomSource R) :
    List ℤ → World → ℚ → ℚ → R → World × R
  | [], w, _, _, r => (w, r)
  | row :: rest, w, dt, diff, r =>
    match w.lanes row with
    | none => updateWindow src rest w dt diff r
    | some l =>
      let u := Lane.update src l dt diff r
      updateWindow src rest
        { w with lanes := fun k => if k = row then some u.1 else w.lanes k }
        dt diff u.2

/-- The pruning pass of `World.update`: delete every row below the cutoff. -/
def pruneLanes (w : World) (cutoff : ℤ) : World :=
  { w with lanes := fun k => if k < cutoff then none else w.lanes k }

/-- `World.update`: generate ahead of the camera, update every lane in the
window, then prune rows further than 30 behind the camera. -/
def World.update {R : Type} (src : RandomSource R) (w : World) (dt : ℚ)
    (camera_row : ℤ) (diff : ℚ) (r : R) : World × R :=
  let g := generateUpTo src w (camera_row + LANE_LOOKAHEAD) r
  let u := updateWindow src
    (intRange (max 0 (camera_row - 10)) (camera_row + LANE_LOOKAHEAD + 1))
    g.1 dt diff g.2
  (pruneLanes u.1 (camera_row - 30), u.2)

/-- The safe-zone loop of `World.__init__`: force the first
`START_SAFE_ROWS` rows to grass, threading each row's open columns into the
next.  Returns the world, the last open-column set, and the generator. -/
def initSafe {R : Type} (src : RandomSource R) :
    ℕ → R → World × Finset ℤ × R
  | 0, r => ({ lanes := fun _ => none, max_generated_row := -1 }, gridRange, r)
  | n + 1, r =>
    let s := initSafe src n r
    let e := ensureLane src s.1 (n : ℤ) (some LaneType.grass) (some s.2.1) s.2.2
    (e.1,
      (match e.1.lanes (n : ℤ) with
       | some l => l.open_cols
       | none => gridRange), e.2)

/-- `World.__init__`: safe zone, then generate ahead by the lookahead. -/
def World.init {R : Type} (src : RandomSource R) (r : R) : World × R :=
  let s := initSafe src START_SAFE_ROWS.toNat r
  let w1 : World := { s.1 with max_generated_row := START_SAFE_ROWS - 1 }
  generateUpTo src w1 (START_SAFE_ROWS + LANE_LOOKAHEAD) s.2.2

/-- `World.lane_at`: ensure-then-return.  Note the Python source passes
`prev_open_cols=None` here. -/
def laneAt {R : Type} (src : RandomSource R) (w : World) (row : ℤ) (r : R) :
    Lane × World × R :=
  let e := ensureLane src w row none none r
  ((e.1.lanes row).getD default, e.1, e.2)

/-! ### Player -/

/-- Player state (`Player.__init__`).  The Python `log_under` field holds an
object reference used only for the cosmetic dip animation; object identity is
modelled as structural equality of the obstacle record. -/
structure Player where
  col : ℤ
  row : ℤ
  x_px : ℚ
  dead : Bool
  max_row : ℤ
  was_on_log : Bool
  log_under : Option Obstacle
  log_dip_t : ℚ

/-- `Player.try_move`: reject moves out of the grid, below row 0, or onto a
blocked grass column; otherwise move, snap the continuous position to the new
column's center, and raise the score. -/
def tryMove {R : Type} (src : RandomSource R) (p : Player) (dcol drow : ℤ)
    (w : World) (r : R) : Player × World × R :=
  if p.dead then (p, w, r)
  else
    let nc := p.col + dcol
    let nr := p.row + drow
    if ¬(0 ≤ nc ∧ nc < GRID_W) then (p, w, r)
    else if nr < 0 then (p, w, r)
    else
      let lw := laneAt src w nr r
      if lw.1.type = LaneType.grass ∧ lw.1.is_blocked nc then
        (p, lw.2.1, lw.2.2)
      else
        ({ p with
           col := nc
           row := nr
           max_row := max p.max_row nr
           x_px := (nc : ℚ) * TILE + TILE / 2 }, lw.2.1, lw.2.2)

/-- The camera test of `Player.update`: the player's tile rectangle (from
`rect_from_tile`) has fallen below the bottom of the screen.  `pygame.Rect`
truncates its coordinate toward zero; for the comparison `top > SCREEN_H`
truncation and `Int.floor` agree (the value is positive whenever the
comparison can hold), so the floor is used. -/
def fellBehind (row : ℤ) (cam_y : ℚ) : Bool :=
  decide ((672 : ℤ) < Int.floor ((SCREEN_H - TILE) - ((row : ℚ) * TILE - cam_y)))

/-- The road-collision, rail-collision and fall-behind tail of
`Player.update`. -/
def collideCam (p : Player) (lane : Lane) (cam_y : ℚ) (w : World) :
    Player × World :=
  if lane.type = LaneType.road ∧ lane.obstacles.any
      (fun ob => decide (ob.x ≤ p.x_px) && decide (p.x_px ≤ ob.x + ob.w)) then
    ({ p with dead := true }, w)
  else if lane.type = LaneType.rail ∧ lane.train_active = true ∧
      lane.train_x ≤ p.x_px ∧ p.x_px ≤ lane.train_x + TILE * 16 then
    ({ p with dead := true }, w)
  else if fellBehind p.row cam_y then ({ p with dead := true }, w)
  else (p, w)

/-- The dip-timer decay at the top of `Player.update`. -/
def dipDecay (p : Player) (dt : ℚ) : Player :=
  if 0 < p.log_dip_t then { p with log_dip_t := max 0 (p.log_dip_t - dt) } else p

/-- `Player.update`: dip-timer decay, the river riding/drowning logic, then
road/rail collisions and the fall-behind check. -/
def Player.update {R : Type} (src : RandomSource R) (p : Player) (dt : ℚ)
    (w : World) (cam_y : ℚ) (r : R) : Player × World × R :=
  if p.dead then (p, w, r)
  else
    let lw := laneAt src w p.row r
    let lane := lw.1
    let w1 := lw.2.1
    let r1 := lw.2.2
    let p1 := dipDecay p dt
    if lane.type = LaneType.river then
      match lane.obstacles.find?
          (fun ob => decide (ob.x ≤ p1.x_px) && decide (p1.x_px ≤ ob.x + ob.w)) with
      | none => ({ p1 with dead := true }, w1, r1)
      | some ob =>
        let carry := (ob.dir : ℚ) * (ob.base_speed * difficulty p1.max_row) * dt
        let p2 : Player := if p1.was_on_log = false ∨ p1.log_under ≠ some ob
                  then { p1 with log_dip_t := LOG_DIP_DURATION } else p1
        let p3 : Player := { p2 with
                    log_under := some ob
                    was_on_log := true
                    x_px := p2.x_px + carry }
        if p3.x_px < (0 : ℚ) ∨ SCREEN_W < p3.x_px then ({ p3 with dead := true }, w1, r1)
        else
          let p4 := { p3 with col := Int.floor (p3.x_px / TILE) }
          let c := collideCam p4 lane cam_y w1
          (c.1, c.2, r1)
    else
      let p2 := { p1 with was_on_log := false, log_under := none }
      let c := collideCam p2 lane cam_y w1
      (c.1, c.2, r1)

/-! ### Derived predicates -/

/-- Separation of two obstacles: the follower's left edge is at least
`MIN_GAP` past the leader's right edge. -/
def sep (a b : Obstacle) : Prop := a.x + a.w + MIN_GAP ≤ b.x

/-- A lane's obstacle list is separated when consecutive obstacles (in list
order) satisfy `sep`. -/
def Separated (l : List Obstacle) : Prop := List.Chain' sep l

/-- The arming guard of the rail branch of `Lane.update`: the decremented
countdown is at or below the warning threshold while the warning timer is not
running. -/
def armsWarning (lane : Lane) (dt : ℚ) : Prop :=
  lane.train_active = false ∧ lane.train_timer - dt ≤ TRAIN_WARNING_TIME ∧
    lane.train_warning ≤ 0

/-- Iterated `Lane.update` with a fixed per-tick `dt` (rail-lane traces). -/
def railIter {R : Type} (src : RandomSource R) (lane : Lane) (dt diff : ℚ)
    (r : R) : ℕ → Lane × R
  | 0 => (lane, r)
  | n + 1 =>
    let s := railIter src lane dt diff r n
    Lane.update src s.1 dt diff s.2

/-- Present rows form a contiguous interval ending at the highest generated
row, with a nonnegative lower cutoff. -/
def RowInterval (w : World) : Prop :=
  ∃ lo : ℤ, 0 ≤ lo ∧ lo ≤ w.max_generated_row + 1 ∧
    ∀ k : ℤ, (w.lanes k).isSome = true ↔ lo ≤ k ∧ k ≤ w.max_generated_row

/-! ### Concrete fixtures for witnesses and counterexamples -/

/-- A roadway lane with no obstacles yet. -/
def roadLaneW : Lane :=
  { row := 7, type := LaneType.road, obstacles := [], blocked_cols := ∅,
    direction := 1, spawn_timer := 0, base_spawn_interval := 1,
    base_speed := 100, train_timer := 6, train_warning := 0,
    train_active := false, train_x := 0, train_dir := 1 }

/-- A railway lane whose countdown sits at 2.05 s with no warning running. -/
def railLaneCE : Lane :=
  { row := 3, type := LaneType.rail, obstacles := [], blocked_cols := ∅,
    direction := 1, spawn_timer := 0, base_spawn_interval := 1, base_speed := 0,
    train_timer := 41/20, train_warning := 0, train_active := false,
    train_x := 0, train_dir := 1 }

/-- `railLaneCE` after one update with `dt = 1`. -/
def railCE1 : Lane := (Lane.update headSource railLaneCE 1 1 ()).1

/-- `railCE1` after one update with `dt = 0.2`. -/
def railCE2 : Lane := (Lane.update headSource railCE1 (1/5) 1 ()).1

/-- `railCE2` after one update with `dt = 0.2`. -/
def railCE3 : Lane := (Lane.update headSource railCE2 (1/5) 1 ()).1

/-- A railway lane whose countdown sits at 1.65 s with no warning running. -/
def railLaneW : Lane :=
  { railLaneCE with train_timer := 33/20 }

/-- A grass lane at row 2 with column 5 blocked. -/
def grassLaneW : Lane :=
  { row := 2, type := LaneType.grass, obstacles := [], blocked_cols := {5},
    direction := 1, spawn_timer := 0, base_spawn_interval := 1, base_speed := 0,
    train_timer := 6, train_warning := 0, train_active := false, train_x := 0,
    train_dir := 1 }

/-- A world holding only `grassLaneW` at row 2. -/
def worldW4 : World :=
  { lanes := fun k => if k = 2 then some grassLaneW else none,
    max_generated_row := 2 }

/-- An alive player at column 5, row 1. -/
def playerW4 : Player :=
  { col := 5, row := 1, x_px := 264, dead := false, max_row := 1,
    was_on_log := false, log_under := none, log_dip_t := 0 }

/-- A log occupying `[200, 296]`, drifting right at base speed 100. -/
def logW5 : Obstacle := { x := 200, w := 96, base_speed := 100, dir := 1 }

/-- A log occupying `[500, 596]`, drifting right at base speed 100. -/
def logW10 : Obstacle := { x := 500, w := 96, base_speed := 100, dir := 1 }

/-- A waterway lane at row 2 carrying `logW5` and `logW10`. -/
def riverLaneW : Lane :=
  { row := 2, type := LaneType.river, obstacles := [logW5, logW10],
    blocked_cols := ∅, direction := 1, spawn_timer := 0,
    base_spawn_interval := 1, base_speed := 100, train_timer := 6,
    train_warning := 0, train_active := false, train_x := 0, train_dir := 1 }

/-- A world holding only `riverLaneW` at row 2. -/
def worldW5 : World :=
  { lanes := fun k => if k = 2 then some riverLaneW else none,
    max_generated_row := 2 }

/-- An alive player riding at `x = 250` on row 2. -/
def playerW5 : Player :=
  { col := 5, row := 2, x_px := 250, dead := false, max_row := 2,
    was_on_log := false, log_under := none, log_dip_t := 0 }

/-- An alive player at `x = 100` on row 2 (over open water). -/
def playerW5b : Player := { playerW5 with x_px := 100, col := 2 }

/-- An alive player at `x = 521.6` on row 2: one tick of riding `logW10` at
difficulty 0.64 with `dt = 0.1` carries it to exactly `SCREEN_W`. -/
def playerW10 : Player := { playerW5 with x_px := 2608/5, col := 10 }

/-- An alive player at `x = 527` on row 2: one tick of riding `logW10`
carries it past the right screen edge. -/
def playerW5c : Player := { playerW5 with x_px := 527, col := 10 }

/-- A grass lane at row 6 with columns 0 and 1 blocked (its open columns are
`{2, …, 10}`). -/
def row6Lane : Lane :=
  { row := 6, type := LaneType.grass, obstacles := [], blocked_cols := {0, 1},
    direction := 1, spawn_timer := 0, base_spawn_interval := 1, base_speed := 0,
    train_timer := 6, train_warning := 0, train_active := false, train_x := 0,
    train_dir := 1 }

/-- A world holding only `row6Lane` at row 6. -/
def worldW8 : World :=
  { lanes := fun k => if k = 6 then some row6Lane else none,
    max_generated_row := 6 }

/-- A grass lane at row 6 with only column 5 blocked (same kind as
`row6Lane`, very different open columns). -/
def row6LaneB : Lane := { row6Lane with blocked_cols := {5} }

/-- A world holding only `row6LaneB` at row 6. -/
def worldW8b : World :=
  { lanes := fun k => if k = 6 then some row6LaneB else none,
    max_generated_row := 6 }

/-! ## Theorems -/

/-- C2: `difficulty` equals the piecewise function of the specification
(0.60 below zero, linear 0.60→1.00 on (0,20), linear 1.00→1.45 on [20,80),
capped at 1.45), and in particular `difficulty 50 = 1.225`. -/
theorem difficulty_matches_spec :
    (∀ s : ℤ, difficulty s = difficultySpec s) ∧ difficulty 50 = 1.225 := by
  constructor
  · intro s
    unfold difficulty difficultySpec
    split_ifs <;> first | rfl | (exfalso; omega) | norm_num
  · norm_num [difficulty]

/-- C9: `difficulty` is monotone non-decreasing, bounded by `[0.60, 1.45]`,
takes the values 0.60 at 0 and 1.00 at 20, and is constantly 1.45 from score
80 on. -/
theorem difficulty_monotone_bounds :
    (∀ s1 s2 : ℤ, s1 ≤ s2 → difficulty s1 ≤ difficulty s2) ∧
    (∀ s : ℤ, 0.60 ≤ difficulty s ∧ difficulty s ≤ 1.45) ∧
    difficulty 0 = 0.60 ∧ difficulty 20 = 1.00 ∧
    (∀ s : ℤ, 80 ≤ s → difficulty s = 1.45) := by
  refine ⟨?_, ?_, by norm_num [difficulty], by norm_num [difficulty], ?_⟩
  · intro s1 s2 h
    have hq : (s1 : ℚ) ≤ (s2 : ℚ) := by exact_mod_cast h
    unfold difficulty
    split_ifs <;> (try qify at *) <;> linarith
  · intro s
    unfold difficulty
    split_ifs with a b c
    · norm_num
    · have h1 : (1 : ℚ) ≤ (s : ℚ) := by exact_mod_cast (by omega : (1 : ℤ) ≤ s)
      have h2 : (s : ℚ) ≤ 19 := by exact_mod_cast (by omega : s ≤ (19 : ℤ))
      constructor <;> nlinarith
    · have h1 : (20 : ℚ) ≤ (s : ℚ) := by exact_mod_cast (by omega : (20 : ℤ) ≤ s)
      have h2 : (s : ℚ) ≤ 79 := by exact_mod_cast (by omega : s ≤ (79 : ℤ))
      constructor <;> nlinarith
    · norm_num
  · intro s hs
    have : ¬s ≤ 0 := by omega
    have h2 : ¬s < 20 := by omega
    have h3 : ¬s < 80 := by omega
    simp [difficulty, this, h2, h3]

/-- C9 witness: instances of monotonicity, the bounds, and the cap. -/
theorem difficulty_monotone_bounds_witness :
    difficulty 5 ≤ difficulty 30 ∧
    (0.60 ≤ difficulty 37 ∧ difficulty 37 ≤ 1.45) ∧
    difficulty 93 = 1.45 :=
  ⟨difficulty_monotone_bounds.1 5 30 (by decide),
   difficulty_monotone_bounds.2.1 37,
   difficulty_monotone_bounds.2.2.2.2 93 (by decide)⟩

/-! ### Lemmas about the no-overlap pass -/

lemma minGap_pos : 0 < MIN_GAP := by norm_num [MIN_GAP, TILE]

lemma pushChain_head (p : Obstacle) (l : List Obstacle) :
    (pushChain p l).head? = some p := by
  cases l <;> rfl

lemma pushChain_sep (l : List Obstacle) : ∀ p, Separated (pushChain p l) := by
  induction l with
  | nil => intro p; simp [pushChain, Separated]
  | cons c rest ih =>
    intro p
    rw [Separated, pushChain, List.chain'_cons']
    refine ⟨?_, ih _⟩
    intro b hb
    rw [pushChain_head] at hb
    cases hb
    unfold sep
    split
    · simp
    · next hlt => linarith [not_lt.mp hlt]

lemma pushChain_map_w (l : List Obstacle) :
    ∀ p, (pushChain p l).map Obstacle.w = p.w :: l.map Obstacle.w := by
  induction l with
  | nil => intro p; rfl
  | cons c rest ih =>
    intro p
    rw [pushChain, List.map_cons, ih, List.map_cons]
    congr 2
    split <;> rfl

lemma enforce_sep (l : List Obstacle) : Separated (enforceNoOverlap l) := by
  unfold enforceNoOverlap
  split
  · next hlen =>
    match l, hlen with
    | [], _ => simp [Separated]
    | [a], _ => simp [Separated]
  · rcases hm : l.mergeSort (fun a b => decide (a.x ≤ b.x)) with _ | ⟨a, rest⟩
    · simp [Separated]
    · exact pushChain_sep rest a

lemma enforce_w_nonneg (l : List Obstacle) (h : ∀ ob ∈ l, 0 ≤ ob.w) :
    ∀ ob ∈ enforceNoOverlap l, 0 ≤ ob.w := by
  intro ob hob
  unfold enforceNoOverlap at hob
  split at hob
  · exact h ob hob
  · rcases hm : l.mergeSort (fun a b => decide (a.x ≤ b.x)) with _ | ⟨a, rest⟩ <;>
      rw [hm] at hob
    · simp at hob
    · have hw : ob.w ∈ (pushChain a rest).map Obstacle.w :=
        List.mem_map_of_mem Obstacle.w hob
      rw [pushChain_map_w] at hw
      have hmem : ∀ x ∈ a :: rest, 0 ≤ x.w := by
        intro x hx
        refine h x ?_
        have : x ∈ l.mergeSort (fun a b => decide (a.x ≤ b.x)) := by
          rw [hm]; exact hx
        exact List.mem_mergeSort.mp this
      rcases List.mem_cons.mp hw with he | hr
      · rw [he]; exact hmem a (List.mem_cons_self a rest)
      · rcases List.mem_map.mp hr with ⟨x, hx, hxw⟩
        rw [← hxw]
        exact hmem x (List.mem_cons_of_mem a hx)

lemma sep_head_le (a : Obstacle) (t : List Obstacle) :
    Separated (a :: t) → (∀ ob ∈ a :: t, 0 ≤ ob.w) →
    ∀ b ∈ t, a.x + MIN_GAP ≤ b.x := by
  induction t generalizing a with
  | nil => intro _ _ b hb; simp at hb
  | cons c rs ih =>
    intro hs hw b hb
    have hac : sep a c := (List.chain'_cons.mp hs).1
    have hwa : 0 ≤ a.w := hw a (List.mem_cons_self _ _)
    rcases List.mem_cons.mp hb with rfl | hb'
    · unfold sep at hac; linarith
    · have htail : Separated (c :: rs) := (List.chain'_cons.mp hs).2
      have hw' : ∀ ob ∈ c :: rs, 0 ≤ ob.w := fun ob h' =>
        hw ob (List.mem_cons_of_mem a h')
      have hcb := ih c htail hw' b hb'
      unfold sep at hac
      have := minGap_pos
      linarith

lemma sep_pairwise (l : List Obstacle) (hs : Separated l)
    (hw : ∀ ob ∈ l, 0 ≤ ob.w) :
    List.Pairwise (fun a b => a.x ≤ b.x) l := by
  induction l with
  | nil => simp
  | cons a t ih =>
    refine List.pairwise_cons.mpr ⟨?_, ?_⟩
    · intro b hb
      have := sep_head_le a t hs hw b hb
      have := minGap_pos
      linarith
    · exact ih ((List.chain'_cons'.mp hs).2)
        (fun ob h' => hw ob (List.mem_cons_of_mem a h'))

lemma spawnObstacle_obstacles {R : Type} (src : RandomSource R) (lane : Lane)
    (r : R) :
    (spawnObstacle src lane r).1.obstacles = lane.obstacles ∨
    ∃ nx nw : ℚ, 0 ≤ nw ∧ (spawnObstacle src lane r).1.obstacles =
      lane.obstacles ++
        [{ x := nx, w := nw, base_speed := lane.base_speed,
           dir := lane.direction }] := by
  unfold spawnObstacle
  rcases hty : lane.type with _ | _ | _ | _ <;> dsimp only
  case grass => exact Or.inl rfl
  case rail => exact Or.inl rfl
  case road =>
    split
    · exact Or.inr ⟨_, _, by norm_num [TILE], rfl⟩
    · exact Or.inl rfl
  case river =>
    split
    · refine Or.inr ⟨_, _, ?_, rfl⟩
      have hm := src.choiceInt_mem [2, 2, 3] r (by simp)
      have hnn : (0 : ℚ) ≤ ((src.choiceInt [2, 2, 3] r).1 : ℚ) := by
        rcases List.mem_cons.mp hm with h2 | hm2
        · rw [h2]; norm_num
        · rcases List.mem_cons.mp hm2 with h2 | hm3
          · rw [h2]; norm_num
          · rcases List.mem_singleton.mp (by simpa using hm3) with h2
            rw [h2]; norm_num
      have ht : (0 : ℚ) ≤ TILE := by norm_num [TILE]
      exact mul_nonneg hnn ht
    · exact Or.inl rfl

lemma spawn_w_nonneg {R : Type} (src : RandomSource R) (lane : Lane) (r : R)
    (h : ∀ ob ∈ lane.obstacles, 0 ≤ ob.w) :
    ∀ ob ∈ (spawnObstacle src lane r).1.obstacles, 0 ≤ ob.w := by
  intro ob hob
  rcases spawnObstacle_obstacles src lane r with he | ⟨nx, nw, hnw, he⟩
  · rw [he] at hob; exact h ob hob
  · rw [he] at hob
    rcases List.mem_append.mp hob with hold | hnew
    · exact h ob hold
    · rcases List.mem_singleton.mp hnew with rfl
      exact hnw

lemma update_obstacles_shape {R : Type} (src : RandomSource R) (lane : Lane)
    (dt diff : ℚ) (r : R)
    (h : lane.type = LaneType.road ∨ lane.type = LaneType.river) :
    ∃ l', (Lane.update src lane dt diff r).1.obstacles = enforceNoOverlap l' ∧
      ((∀ ob ∈ lane.obstacles, 0 ≤ ob.w) → ∀ ob ∈ l', 0 ≤ ob.w) := by
  have hculled : ∀ ob ∈ (lane.obstacles.map (moveOb dt diff)).filter
      (fun ob => decide (-(TILE * 5) < ob.x + ob.w) &&
        decide (ob.x < SCREEN_W + TILE * 5)),
      (∀ ob ∈ lane.obstacles, 0 ≤ ob.w) → 0 ≤ ob.w := by
    intro ob hob hw
    have hmm := List.mem_filter.mp hob
    rcases List.mem_map.mp hmm.1 with ⟨x, hx, hxe⟩
    rw [← hxe]
    exact hw x hx
  unfold Lane.update
  dsimp only
  split
  · split <;>
      first
        | exact ⟨_, rfl, fun hw =>
            spawn_w_nonneg src _ _ (fun ob hob => hculled ob hob hw)⟩
        | exact ⟨_, rfl, fun hw ob hob => hculled ob hob hw⟩
  · next hna =>
    exact absurd h hna

/-- C1: after any single `Lane.update` of a roadway or waterway lane the
obstacle list is separated — consecutive obstacles keep at least `MIN_GAP`
between the leader's trailing edge and the follower's leading edge, for either
travel direction (the statement does not depend on `lane.direction`); with
nonnegative widths the post-update list is sorted by position, so no obstacle
overlaps another; and the movement phase displaces obstacles sharing the
lane's fixed speed and direction equally, so it never reorders them (no
passing). -/
theorem lane_update_no_overlap :
    (∀ {R : Type} (src : RandomSource R) (lane : Lane) (dt diff : ℚ) (r : R),
      lane.type = LaneType.road ∨ lane.type = LaneType.river →
      Separated ((Lane.update src lane dt diff r).1.obstacles)) ∧
    (∀ {R : Type} (src : RandomSource R) (lane : Lane) (dt diff : ℚ) (r : R),
      lane.type = LaneType.road ∨ lane.type = LaneType.river →
      (∀ ob ∈ lane.obstacles, 0 ≤ ob.w) →
      List.Pairwise (fun a b => a.x ≤ b.x)
        ((Lane.update src lane dt diff r).1.obstacles)) ∧
    (∀ (dt diff : ℚ) (lane : Lane),
      (∀ ob ∈ lane.obstacles,
        ob.base_speed = lane.base_speed ∧ ob.dir = lane.direction) →
      List.Pairwise (fun a b => a.x ≤ b.x) lane.obstacles →
      List.Pairwise (fun a b => a.x ≤ b.x)
        (lane.obstacles.map (moveOb dt diff))) := by
  refine ⟨?_, ?_, ?_⟩
  · intro R src lane dt diff r h
    rcases update_obstacles_shape src lane dt diff r h with ⟨l', he, _⟩
    rw [he]
    exact enforce_sep l'
  · intro R src lane dt diff r h hw
    rcases update_obstacles_shape src lane dt diff r h with ⟨l', he, hl⟩
    rw [he]
    exact sep_pairwise _ (enforce_sep l') (enforce_w_nonneg l' (hl hw))
  · intro dt diff lane hsame hp
    rw [List.pairwise_map]
    refine List.Pairwise.imp_of_mem ?_ hp
    intro a b ha hb hab
    rcases hsame a ha with ⟨hsa, hda⟩
    rcases hsame b hb with ⟨hsb, hdb⟩
    simp only [moveOb, hsa, hda, hsb, hdb]
    linarith

/-- C1 witness: the separation, sortedness and order-preservation statements
instantiated at a concrete roadway lane. -/
theorem lane_update_no_overlap_witness :
    Separated ((Lane.update headSource roadLaneW (1/60) 1 ()).1.obstacles) ∧
    List.Pairwise (fun a b => a.x ≤ b.x)
      ((Lane.update headSource roadLaneW (1/60) 1 ()).1.obstacles) ∧
    List.Pairwise (fun a b => a.x ≤ b.x)
      (roadLaneW.obstacles.map (moveOb (1/60) 1)) :=
  ⟨lane_update_no_overlap.1 headSource roadLaneW (1/60) 1 () (Or.inl rfl),
   lane_update_no_overlap.2.1 headSource roadLaneW (1/60) 1 () (Or.inl rfl)
     (by simp [roadLaneW]),
   lane_update_no_overlap.2.2 (1/60) 1 roadLaneW (by simp [roadLaneW])
     (by simp [roadLaneW])⟩

/-! ### Player movement and riding -/

/-- C4: for an alive player, a one-cell move is rejected with the player
record unchanged when the target column leaves `0..GRID_W-1`, when the target
row is negative, or when the target lane is grass with the target column
blocked; otherwise the discrete position updates, the continuous position
snaps to the new column's center, and the score becomes the maximum of the
old score and the new row. -/
theorem try_move_rules :
    (∀ {R : Type} (src : RandomSource R) (p : Player) (dcol drow : ℤ)
      (w : World) (r : R), p.dead = false →
      ¬(0 ≤ p.col + dcol ∧ p.col + dcol < GRID_W) →
      (tryMove src p dcol drow w r).1 = p) ∧
    (∀ {R : Type} (src : RandomSource R) (p : Player) (dcol drow : ℤ)
      (w : World) (r : R), p.dead = false → p.row + drow < 0 →
      (tryMove src p dcol drow w r).1 = p) ∧
    (∀ {R : Type} (src : RandomSource R) (p : Player) (dcol drow : ℤ)
      (w : World) (r : R), p.dead = false →
      (0 ≤ p.col + dcol ∧ p.col + dcol < GRID_W) → 0 ≤ p.row + drow →
      (laneAt src w (p.row + drow) r).1.type = LaneType.grass →
      (laneAt src w (p.row + drow) r).1.is_blocked (p.col + dcol) = true →
      (tryMove src p dcol drow w r).1 = p) ∧
    (∀ {R : Type} (src : RandomSource R) (p : Player) (dcol drow : ℤ)
      (w : World) (r : R), p.dead = false →
      (0 ≤ p.col + dcol ∧ p.col + dcol < GRID_W) → 0 ≤ p.row + drow →
      ¬((laneAt src w (p.row + drow) r).1.type = LaneType.grass ∧
        (laneAt src w (p.row + drow) r).1.is_blocked (p.col + dcol) = true) →
      (tryMove src p dcol drow w r).1 =
        { p with
          col := p.col + dcol
          row := p.row + drow
          max_row := max p.max_row (p.row + drow)
          x_px := ((p.col + dcol : ℤ) : ℚ) * TILE + TILE / 2 }) := by
  refine ⟨?_, ?_, ?_, ?_⟩
  · intro R src p dcol drow w r hd h1
    unfold tryMove
    dsimp only
    rw [if_neg (by simp [hd]), if_pos h1]
  · intro R src p dcol drow w r hd h1
    unfold tryMove
    dsimp only
    rw [if_neg (by simp [hd])]
    by_cases hb : 0 ≤ p.col + dcol ∧ p.col + dcol < GRID_W
    · rw [if_neg (not_not_intro hb), if_pos h1]
    · rw [if_pos hb]
  · intro R src p dcol drow w r hd h1 h2 h3 h4
    unfold tryMove
    dsimp only
    rw [if_neg (by simp [hd]), if_neg (not_not_intro h1),
      if_neg (by omega), if_pos ⟨h3, h4⟩]
  · intro R src p dcol drow w r hd h1 h2 h3
    unfold tryMove
    dsimp only
    rw [if_neg (by simp [hd]), if_neg (not_not_intro h1),
      if_neg (by omega), if_neg h3]

/-- C4 witness: the four move outcomes at a concrete world and player: a move
off the left edge, a move below row 0, a move onto a blocked grass column
(all rejected unchanged), and an accepted diagonal move. -/
theorem try_move_rules_witness :
    (tryMove headSource playerW4 (-6) 0 worldW4 ()).1 = playerW4 ∧
    (tryMove headSource playerW4 0 (-2) worldW4 ()).1 = playerW4 ∧
    (tryMove headSource playerW4 0 1 worldW4 ()).1 = playerW4 ∧
    (tryMove headSource playerW4 1 1 worldW4 ()).1 =
      { playerW4 with
        col := playerW4.col + 1
        row := playerW4.row + 1
        max_row := max playerW4.max_row (playerW4.row + 1)
        x_px := ((playerW4.col + 1 : ℤ) : ℚ) * TILE + TILE / 2 } :=
  ⟨try_move_rules.1 headSource playerW4 (-6) 0 worldW4 () rfl (by decide),
   try_move_rules.2.1 headSource playerW4 0 (-2) worldW4 () rfl (by decide),
   try_move_rules.2.2.1 headSource playerW4 0 1 worldW4 () rfl (by decide)
     (by decide) (by decide) (by decide),
   try_move_rules.2.2.2 headSource playerW4 1 1 worldW4 () rfl (by decide)
     (by decide) (by decide)⟩

lemma dipDecay_x_px (p : Player) (dt : ℚ) : (dipDecay p dt).x_px = p.x_px := by
  unfold dipDecay; split <;> rfl

lemma dipDecay_dead (p : Player) (dt : ℚ) : (dipDecay p dt).dead = p.dead := by
  unfold dipDecay; split <;> rfl

lemma dipDecay_col (p : Player) (dt : ℚ) : (dipDecay p dt).col = p.col := by
  unfold dipDecay; split <;> rfl

lemma dipDecay_row (p : Player) (dt : ℚ) : (dipDecay p dt).row = p.row := by
  unfold dipDecay; split <;> rfl

lemma dipDecay_max_row (p : Player) (dt : ℚ) :
    (dipDecay p dt).max_row = p.max_row := by
  unfold dipDecay; split <;> rfl

lemma collideCam_x_px (p : Player) (lane : Lane) (cam : ℚ) (w : World) :
    (collideCam p lane cam w).1.x_px = p.x_px := by
  unfold collideCam; split_ifs <;> rfl

lemma collideCam_col (p : Player) (lane : Lane) (cam : ℚ) (w : World) :
    (collideCam p lane cam w).1.col = p.col := by
  unfold collideCam; split_ifs <;> rfl

lemma collideCam_skip (p : Player) (lane : Lane) (cam : ℚ) (w : World)
    (h1 : lane.type ≠ LaneType.road) (h2 : lane.type ≠ LaneType.rail)
    (h3 : fellBehind p.row cam = false) :
    collideCam p lane cam w = (p, w) := by
  unfold collideCam
  rw [if_neg (by simp [h1]), if_neg (by simp [h2]), if_neg (by simp [h3])]

lemma river_drown {R : Type} (src : RandomSource R) (p : Player) (dt : ℚ)
    (w : World) (cam : ℚ) (r : R) (hd : p.dead = false)
    (hriver : (laneAt src w p.row r).1.type = LaneType.river)
    (hnone : ∀ ob ∈ (laneAt src w p.row r).1.obstacles,
      ¬(ob.x ≤ p.x_px ∧ p.x_px ≤ ob.x + ob.w)) :
    (Player.update src p dt w cam r).1.dead = true := by
  have hfind : (laneAt src w p.row r).1.obstacles.find?
      (fun ob => decide (ob.x ≤ (dipDecay p dt).x_px) &&
        decide ((dipDecay p dt).x_px ≤ ob.x + ob.w)) = none := by
    rw [List.find?_eq_none]
    intro x hx
    simp only [dipDecay_x_px, Bool.and_eq_true, decide_eq_true_eq, not_and]
    intro h1 h2
    exact hnone x hx ⟨h1, h2⟩
  unfold Player.update
  dsimp only
  rw [if_neg (by simp [hd]), if_pos hriver, hfind]

lemma river_carry_x {R : Type} (src : RandomSource R) (p : Player) (dt : ℚ)
    (w : World) (cam : ℚ) (r : R) (ob : Obstacle) (hd : p.dead = false)
    (hriver : (laneAt src w p.row r).1.type = LaneType.river)
    (hfind : (laneAt src w p.row r).1.obstacles.find?
      (fun o => decide (o.x ≤ p.x_px) && decide (p.x_px ≤ o.x + o.w)) = some ob) :
    (Player.update src p dt w cam r).1.x_px =
      p.x_px + (ob.dir : ℚ) * (ob.base_speed * difficulty p.max_row) * dt := by
  have hfind' : (laneAt src w p.row r).1.obstacles.find?
      (fun o => decide (o.x ≤ (dipDecay p dt).x_px) &&
        decide ((dipDecay p dt).x_px ≤ o.x + o.w)) = some ob := by
    simpa [dipDecay_x_px] using hfind
  unfold Player.update
  dsimp only
  rw [if_neg (by simp [hd]), if_pos hriver, hfind']
  dsimp only
  split <;> split <;>
    simp [collideCam_x_px, apply_ite Player.x_px, dipDecay_x_px, dipDecay_max_row]

lemma river_exit_dead {R : Type} (src : RandomSource R) (p : Player) (dt : ℚ)
    (w : World) (cam : ℚ) (r : R) (ob : Obstacle) (hd : p.dead = false)
    (hriver : (laneAt src w p.row r).1.type = LaneType.river)
    (hfind : (laneAt src w p.row r).1.obstacles.find?
      (fun o => decide (o.x ≤ p.x_px) && decide (p.x_px ≤ o.x + o.w)) = some ob)
    (hout : p.x_px + (ob.dir : ℚ) * (ob.base_speed * difficulty p.max_row) * dt < 0 ∨
      SCREEN_W < p.x_px + (ob.dir : ℚ) * (ob.base_speed * difficulty p.max_row) * dt) :
    (Player.update src p dt w cam r).1.dead = true := by
  have hfind' : (laneAt src w p.row r).1.obstacles.find?
      (fun o => decide (o.x ≤ (dipDecay p dt).x_px) &&
        decide ((dipDecay p dt).x_px ≤ o.x + o.w)) = some ob := by
    simpa [dipDecay_x_px] using hfind
  unfold Player.update
  dsimp only
  rw [if_neg (by simp [hd]), if_pos hriver, hfind']
  dsimp only
  split <;> split <;>
    first
      | rfl
      | (next hc =>
          exact absurd (by simpa [dipDecay_x_px, dipDecay_max_row] using hout) hc)

lemma river_sync_col {R : Type} (src : RandomSource R) (p : Player) (dt : ℚ)
    (w : World) (cam : ℚ) (r : R) (ob : Obstacle) (hd : p.dead = false)
    (hriver : (laneAt src w p.row r).1.type = LaneType.river)
    (hfind : (laneAt src w p.row r).1.obstacles.find?
      (fun o => decide (o.x ≤ p.x_px) && decide (p.x_px ≤ o.x + o.w)) = some ob)
    (hin : ¬(p.x_px + (ob.dir : ℚ) * (ob.base_speed * difficulty p.max_row) * dt < 0 ∨
      SCREEN_W < p.x_px + (ob.dir : ℚ) * (ob.base_speed * difficulty p.max_row) * dt)) :
    (Player.update src p dt w cam r).1.col =
      Int.floor ((p.x_px + (ob.dir : ℚ) *
        (ob.base_speed * difficulty p.max_row) * dt) / TILE) := by
  have hfind' : (laneAt src w p.row r).1.obstacles.find?
      (fun o => decide (o.x ≤ (dipDecay p dt).x_px) &&
        decide ((dipDecay p dt).x_px ≤ o.x + o.w)) = some ob := by
    simpa [dipDecay_x_px] using hfind
  unfold Player.update
  dsimp only
  rw [if_neg (by simp [hd]), if_pos hriver, hfind']
  dsimp only
  split <;> split <;>
    first
      | (next hc =>
          exact absurd (by simpa [dipDecay_x_px, dipDecay_max_row] using hc) hin)
      | simp [collideCam_col, dipDecay_x_px, dipDecay_max_row]

lemma river_survive {R : Type} (src : RandomSource R) (p : Player) (dt : ℚ)
    (w : World) (cam : ℚ) (r : R) (ob : Obstacle) (hd : p.dead = false)
    (hriver : (laneAt src w p.row r).1.type = LaneType.river)
    (hfind : (laneAt src w p.row r).1.obstacles.find?
      (fun o => decide (o.x ≤ p.x_px) && decide (p.x_px ≤ o.x + o.w)) = some ob)
    (hin : ¬(p.x_px + (ob.dir : ℚ) * (ob.base_speed * difficulty p.max_row) * dt < 0 ∨
      SCREEN_W < p.x_px + (ob.dir : ℚ) * (ob.base_speed * difficulty p.max_row) * dt))
    (hcam : fellBehind p.row cam = false) :
    (Player.update src p dt w cam r).1.dead = false := by
  have hfind' : (laneAt src w p.row r).1.obstacles.find?
      (fun o => decide (o.x ≤ (dipDecay p dt).x_px) &&
        decide ((dipDecay p dt).x_px ≤ o.x + o.w)) = some ob := by
    simpa [dipDecay_x_px] using hfind
  unfold Player.update
  dsimp only
  rw [if_neg (by simp [hd]), if_pos hriver, hfind']
  dsimp only
  split <;> split <;>
    first
      | (next hc =>
          exact absurd (by simpa [dipDecay_x_px, dipDecay_max_row] using hc) hin)
      | (rw [collideCam_skip _ _ _ _ (by rw [hriver]; decide)
            (by rw [hriver]; decide)
            (by simpa [dipDecay_row] using hcam)]
         simp [dipDecay_dead, hd])

/-- C5: per-tick update of an alive player on a waterway lane: with no
obstacle interval containing the continuous position the player dies; with a
carrying obstacle the continuous position changes by exactly
`dir * base_speed * difficulty * dt`, death follows when the carried position
exits the screen bounds, and otherwise the discrete column is recomputed as
the floor of the carried position over `TILE`. -/
theorem player_river_update_spec :
    (∀ {R : Type} (src : RandomSource R) (p : Player) (dt : ℚ) (w : World)
      (cam : ℚ) (r : R), p.dead = false →
      (laneAt src w p.row r).1.type = LaneType.river →
      (∀ ob ∈ (laneAt src w p.row r).1.obstacles,
        ¬(ob.x ≤ p.x_px ∧ p.x_px ≤ ob.x + ob.w)) →
      (Player.update src p dt w cam r).1.dead = true) ∧
    (∀ {R : Type} (src : RandomSource R) (p : Player) (dt : ℚ) (w : World)
      (cam : ℚ) (r : R) (ob : Obstacle), p.dead = false →
      (laneAt src w p.row r).1.type = LaneType.river →
      (laneAt src w p.row r).1.obstacles.find?
        (fun o => decide (o.x ≤ p.x_px) && decide (p.x_px ≤ o.x + o.w)) = some ob →
      (Player.update src p dt w cam r).1.x_px =
        p.x_px + (ob.dir : ℚ) * (ob.base_speed * difficulty p.max_row) * dt) ∧
    (∀ {R : Type} (src : RandomSource R) (p : Player) (dt : ℚ) (w : World)
      (cam : ℚ) (r : R) (ob : Obstacle), p.dead = false →
      (laneAt src w p.row r).1.type = LaneType.river →
      (laneAt src w p.row r).1.obstacles.find?
        (fun o => decide (o.x ≤ p.x_px) && decide (p.x_px ≤ o.x + o.w)) = some ob →
      (p.x_px + (ob.dir : ℚ) * (ob.base_speed * difficulty p.max_row) * dt < 0 ∨
        SCREEN_W < p.x_px + (ob.dir : ℚ) * (ob.base_speed * difficulty p.max_row) * dt) →
      (Player.update src p dt w cam r).1.dead = true) ∧
    (∀ {R : Type} (src : RandomSource R) (p : Player) (dt : ℚ) (w : World)
      (cam : ℚ) (r : R) (ob : Obstacle), p.dead = false →
      (laneAt src w p.row r).1.type = LaneType.river →
      (laneAt src w p.row r).1.obstacles.find?
        (fun o => decide (o.x ≤ p.x_px) && decide (p.x_px ≤ o.x + o.w)) = some ob →
      ¬(p.x_px + (ob.dir : ℚ) * (ob.base_speed * difficulty p.max_row) * dt < 0 ∨
        SCREEN_W < p.x_px + (ob.dir : ℚ) * (ob.base_speed * difficulty p.max_row) * dt) →
      (Player.update src p dt w cam r).1.col =
        Int.floor ((p.x_px + (ob.dir : ℚ) *
          (ob.base_speed * difficulty p.max_row) * dt) / TILE)) :=
  ⟨fun src p dt w cam r hd hr hn => river_drown src p dt w cam r hd hr hn,
   fun src p dt w cam r ob hd hr hf => river_carry_x src p dt w cam r ob hd hr hf,
   fun src p dt w cam r ob hd hr hf ho =>
     river_exit_dead src p dt w cam r ob hd hr hf ho,
   fun src p dt w cam r ob hd hr hf hi =>
     river_sync_col src p dt w cam r ob hd hr hf hi⟩

/-- C5 witness: at a concrete waterway world, a player over open water dies;
a carried player's position advances by `dir * base_speed * difficulty * dt`;
a player carried past the right edge dies; a surviving carried player's
column is recomputed by floor division. -/
theorem player_river_update_spec_witness :
    (Player.update headSource playerW5b (1/10) worldW5 0 ()).1.dead = true ∧
    (Player.update headSource playerW5 (1/10) worldW5 0 ()).1.x_px =
      playerW5.x_px +
        (logW5.dir : ℚ) * (logW5.base_speed * difficulty playerW5.max_row) * (1/10) ∧
    (Player.update headSource playerW5c (1/10) worldW5 0 ()).1.dead = true ∧
    (Player.update headSource playerW5 (1/10) worldW5 0 ()).1.col =
      Int.floor ((playerW5.x_px +
        (logW5.dir : ℚ) * (logW5.base_speed * difficulty playerW5.max_row) * (1/10)) / TILE) :=
  ⟨player_river_update_spec.1 headSource playerW5b (1/10) worldW5 0 () rfl
      rfl
      (by
        rw [show (laneAt headSource worldW5 playerW5b.row ()).1.obstacles =
          [logW5, logW10] from rfl]
        intro ob hob
        rcases List.mem_cons.mp hob with rfl | hob'
        · norm_num [logW5, playerW5b, playerW5]
        · rcases List.mem_singleton.mp hob' with rfl
          norm_num [logW10, playerW5b, playerW5]),
   player_river_update_spec.2.1 headSource playerW5 (1/10) worldW5 0 () logW5 rfl
      rfl
      (by
        rw [show (laneAt headSource worldW5 playerW5.row ()).1.obstacles =
          [logW5, logW10] from rfl]
        norm_num [List.find?, logW5, playerW5]),
   player_river_update_spec.2.2.1 headSource playerW5c (1/10) worldW5 0 () logW10 rfl
      rfl
      (by
        rw [show (laneAt headSource worldW5 playerW5c.row ()).1.obstacles =
          [logW5, logW10] from rfl]
        norm_num [List.find?, logW5, logW10, playerW5c, playerW5])
      (by norm_num [logW10, playerW5c, playerW5, SCREEN_W, GRID_W, TILE, difficulty]),
   player_river_update_spec.2.2.2 headSource playerW5 (1/10) worldW5 0 () logW5 rfl
      rfl
      (by
        rw [show (laneAt headSource worldW5 playerW5.row ()).1.obstacles =
          [logW5, logW10] from rfl]
        norm_num [List.find?, logW5, playerW5])
      (by norm_num [logW5, playerW5, SCREEN_W, GRID_W, TILE, difficulty])⟩

/-- C10: while carried on a waterway lane (with the camera not having outrun
the player), the player dies of leaving the screen exactly when the carried
position is strictly below 0 or strictly above `SCREEN_W` (both bounds are
survivable); the surviving column is the unclamped floor of the carried
position over `TILE`, so a player carried to exactly `SCREEN_W` gets column
`GRID_W`, one past the last valid column `GRID_W - 1`. -/
theorem river_screen_exit_spec :
    (∀ {R : Type} (src : RandomSource R) (p : Player) (dt : ℚ) (w : World)
      (cam : ℚ) (r : R) (ob : Obstacle), p.dead = false →
      (laneAt src w p.row r).1.type = LaneType.river →
      (laneAt src w p.row r).1.obstacles.find?
        (fun o => decide (o.x ≤ p.x_px) && decide (p.x_px ≤ o.x + o.w)) = some ob →
      fellBehind p.row cam = false →
      ((Player.update src p dt w cam r).1.dead = true ↔
        (p.x_px + (ob.dir : ℚ) * (ob.base_speed * difficulty p.max_row) * dt < 0 ∨
          SCREEN_W < p.x_px + (ob.dir : ℚ) * (ob.base_speed * difficulty p.max_row) * dt))) ∧
    (∀ {R : Type} (src : RandomSource R) (p : Player) (dt : ℚ) (w : World)
      (cam : ℚ) (r : R) (ob : Obstacle), p.dead = false →
      (laneAt src w p.row r).1.type = LaneType.river →
      (laneAt src w p.row r).1.obstacles.find?
        (fun o => decide (o.x ≤ p.x_px) && decide (p.x_px ≤ o.x + o.w)) = some ob →
      ¬(p.x_px + (ob.dir : ℚ) * (ob.base_speed * difficulty p.max_row) * dt < 0 ∨
        SCREEN_W < p.x_px + (ob.dir : ℚ) * (ob.base_speed * difficulty p.max_row) * dt) →
      (Player.update src p dt w cam r).1.col =
        Int.floor ((p.x_px + (ob.dir : ℚ) *
          (ob.base_speed * difficulty p.max_row) * dt) / TILE)) ∧
    (∀ {R : Type} (src : RandomSource R) (p : Player) (dt : ℚ) (w : World)
      (cam : ℚ) (r : R) (ob : Obstacle), p.dead = false →
      (laneAt src w p.row r).1.type = LaneType.river →
      (laneAt src w p.row r).1.obstacles.find?
        (fun o => decide (o.x ≤ p.x_px) && decide (p.x_px ≤ o.x + o.w)) = some ob →
      fellBehind p.row cam = false →
      p.x_px + (ob.dir : ℚ) * (ob.base_speed * difficulty p.max_row) * dt = SCREEN_W →
      (Player.update src p dt w cam r).1.col = GRID_W ∧
        ¬((Player.update src p dt w cam r).1.col ≤ GRID_W - 1) ∧
        (Player.update src p dt w cam r).1.dead = false) := by
  have hscreen : ¬(SCREEN_W < (0 : ℚ) ∨ SCREEN_W < SCREEN_W) := by
    norm_num [SCREEN_W, GRID_W, TILE]
  refine ⟨?_, ?_, ?_⟩
  · intro R src p dt w cam r ob hd hr hf hcam
    constructor
    · intro hdd
      by_contra hno
      rw [river_survive src p dt w cam r ob hd hr hf hno hcam] at hdd
      simp at hdd
    · exact river_exit_dead src p dt w cam r ob hd hr hf
  · intro R src p dt w cam r ob hd hr hf hin
    exact river_sync_col src p dt w cam r ob hd hr hf hin
  · intro R src p dt w cam r ob hd hr hf hcam hx
    have hin : ¬(p.x_px + (ob.dir : ℚ) * (ob.base_speed * difficulty p.max_row) * dt < 0 ∨
        SCREEN_W < p.x_px + (ob.dir : ℚ) * (ob.base_speed * difficulty p.max_row) * dt) := by
      rw [hx]
      intro hor
      rcases hor with h1 | h1
      · have : (0 : ℚ) < SCREEN_W := by norm_num [SCREEN_W, GRID_W, TILE]
        linarith
      · linarith
    have hcol := river_sync_col src p dt w cam r ob hd hr hf hin
    rw [hx] at hcol
    have hval : Int.floor (SCREEN_W / TILE) = GRID_W := by
      norm_num [SCREEN_W, GRID_W, TILE]
    rw [hval] at hcol
    exact ⟨hcol, by rw [hcol]; omega,
      river_survive src p dt w cam r ob hd hr hf hin hcam⟩

/-- C10 witness: a player carried to exactly `SCREEN_W = 528` survives with
column `GRID_W = 11`, outside the valid range, and the death-iff and
column-floor parts instantiated at the same input. -/
theorem river_screen_exit_spec_witness :
    ((Player.update headSource playerW10 (1/10) worldW5 0 ()).1.dead = true ↔
      (playerW10.x_px + (logW10.dir : ℚ) *
        (logW10.base_speed * difficulty playerW10.max_row) * (1/10) < 0 ∨
        SCREEN_W < playerW10.x_px + (logW10.dir : ℚ) *
          (logW10.base_speed * difficulty playerW10.max_row) * (1/10))) ∧
    (Player.update headSource playerW10 (1/10) worldW5 0 ()).1.col =
      Int.floor ((playerW10.x_px + (logW10.dir : ℚ) *
        (logW10.base_speed * difficulty playerW10.max_row) * (1/10)) / TILE) ∧
    (Player.update headSource playerW10 (1/10) worldW5 0 ()).1.col = GRID_W ∧
    ¬((Player.update headSource playerW10 (1/10) worldW5 0 ()).1.col ≤ GRID_W - 1) ∧
    (Player.update headSource playerW10 (1/10) worldW5 0 ()).1.dead = false := by
  have hfind : (laneAt headSource worldW5 playerW10.row ()).1.obstacles.find?
      (fun o => decide (o.x ≤ playerW10.x_px) &&
        decide (playerW10.x_px ≤ o.x + o.w)) = some logW10 := by
    rw [show (laneAt headSource worldW5 playerW10.row ()).1.obstacles =
      [logW5, logW10] from rfl]
    norm_num [List.find?, logW5, logW10, playerW10, playerW5]
  have hcam : fellBehind playerW10.row 0 = false := by
    norm_num [fellBehind, playerW10, playerW5, SCREEN_H, TILE]
  have hx : playerW10.x_px + (logW10.dir : ℚ) *
      (logW10.base_speed * difficulty playerW10.max_row) * (1/10) = SCREEN_W := by
    norm_num [logW10, playerW10, playerW5, SCREEN_W, GRID_W, TILE, difficulty]
  have h3 := river_screen_exit_spec.2.2 headSource playerW10 (1/10) worldW5 0 ()
    logW10 rfl rfl hfind hcam hx
  refine ⟨river_screen_exit_spec.1 headSource playerW10 (1/10) worldW5 0 () logW10
      rfl rfl hfind hcam,
    river_screen_exit_spec.2.1 headSource playerW10 (1/10) worldW5 0 () logW10
      rfl rfl hfind ?_,
    h3.1, h3.2.1, h3.2.2⟩
  rw [hx]
  norm_num [SCREEN_W, GRID_W, TILE]

/-! ### Rail warning lemmas -/

lemma cull_type (lane : Lane) (dt diff : ℚ) :
    (cullObstacles lane dt diff).type = lane.type := rfl

lemma cull_active (lane : Lane) (dt diff : ℚ) :
    (cullObstacles lane dt diff).train_active = lane.train_active := rfl

lemma update_rail_idle {R : Type} (src : RandomSource R) (lane : Lane)
    (dt diff : ℚ) (r : R) (hrail : lane.type = LaneType.rail)
    (hidle : lane.train_active = false) :
    Lane.update src lane dt diff r =
      (stepRailIdle (cullObstacles lane dt diff) dt, r) := by
  unfold Lane.update
  dsimp only
  rw [if_neg (by simp [cull_type, hrail]),
    if_pos (show (cullObstacles lane dt diff).type = LaneType.rail from hrail),
    if_pos (show (cullObstacles lane dt diff).train_active = false from hidle)]

lemma stepRailIdle_timer (lane : Lane) (dt : ℚ) :
    (stepRailIdle lane dt).train_timer = lane.train_timer - dt := by
  unfold stepRailIdle warnDecay spawnTrain
  dsimp only
  split_ifs <;> rfl

lemma stepRailIdle_type (lane : Lane) (dt : ℚ) :
    (stepRailIdle lane dt).type = lane.type := by
  unfold stepRailIdle warnDecay spawnTrain
  dsimp only
  split_ifs <;> rfl

lemma stepRailIdle_nospawn_active (lane : Lane) (dt : ℚ)
    (hns : ¬(lane.train_timer - dt ≤ 0)) :
    (stepRailIdle lane dt).train_active = lane.train_active := by
  unfold stepRailIdle warnDecay
  dsimp only
  rw [if_neg hns]
  split_ifs <;> rfl

lemma stepRailIdle_spawn (lane : Lane) (dt : ℚ)
    (hs : lane.train_timer - dt ≤ 0) :
    (stepRailIdle lane dt).train_active = true ∧
    (stepRailIdle lane dt).train_warning = 0 ∧
    (stepRailIdle lane dt).train_x =
      (if lane.train_dir = 1 then -(TILE * 12) else SCREEN_W + TILE * 12) := by
  unfold stepRailIdle warnDecay spawnTrain
  dsimp only
  rw [if_pos hs]
  dsimp only
  rw [if_neg (by norm_num)]
  exact ⟨rfl, rfl, rfl⟩

lemma stepRailIdle_warning_arm (lane : Lane) (dt : ℚ)
    (hns : ¬(lane.train_timer - dt ≤ 0))
    (harm : lane.train_timer - dt ≤ TRAIN_WARNING_TIME ∧ lane.train_warning ≤ 0) :
    (stepRailIdle lane dt).train_warning =
      if TRAIN_WARNING_TIME - dt < 0 then 0 else TRAIN_WARNING_TIME - dt := by
  unfold stepRailIdle warnDecay
  dsimp only
  rw [if_pos harm, if_neg hns]
  dsimp only
  rw [if_pos (by norm_num [TRAIN_WARNING_TIME])]

lemma stepRailIdle_warning_noarm (lane : Lane) (dt : ℚ)
    (hns : ¬(lane.train_timer - dt ≤ 0))
    (hnarm : ¬(lane.train_timer - dt ≤ TRAIN_WARNING_TIME ∧ lane.train_warning ≤ 0)) :
    (stepRailIdle lane dt).train_warning =
      if 0 < lane.train_warning then
        (if lane.train_warning - dt < 0 then 0 else lane.train_warning - dt)
      else lane.train_warning := by
  unfold stepRailIdle warnDecay
  dsimp only
  rw [if_neg hnarm, if_neg hns]
  dsimp only
  split_ifs <;> rfl

lemma spawn_type {R : Type} (src : RandomSource R) (lane : Lane) (r : R) :
    (spawnObstacle src lane r).1.type = lane.type := by
  unfold spawnObstacle
  rcases hty : lane.type with _ | _ | _ | _ <;> dsimp only <;>
    first
      | exact hty
      | (split_ifs <;> simp [hty])

lemma stepRailActive_type {R : Type} (src : RandomSource R) (lane : Lane)
    (dt diff : ℚ) (r : R) :
    (stepRailActive src lane dt diff r).1.type = lane.type := by
  unfold stepRailActive warnDecay finishTrain
  dsimp only
  split_ifs <;> rfl

lemma update_type {R : Type} (src : RandomSource R) (lane : Lane)
    (dt diff : ℚ) (r : R) :
    (Lane.update src lane dt diff r).1.type = lane.type := by
  unfold Lane.update
  dsimp only
  split
  · split
    · dsimp only
      rw [spawn_type]
      rfl
    · rfl
  · split
    · split
      · rw [show ((stepRailIdle (cullObstacles lane dt diff) dt, r) :
            Lane × R).1 = stepRailIdle (cullObstacles lane dt diff) dt from rfl,
          stepRailIdle_type]
        rfl
      · rw [stepRailActive_type]
        rfl
    · rfl

lemma railIter_succ {R : Type} (src : RandomSource R) (lane : Lane)
    (dt diff : ℚ) (r : R) (n : ℕ) :
    railIter src lane dt diff r (n + 1) =
      Lane.update src (railIter src lane dt diff r n).1 dt diff
        (railIter src lane dt diff r n).2 := rfl

lemma railIter_type {R : Type} (src : RandomSource R) (lane : Lane)
    (dt diff : ℚ) (r : R) (n : ℕ) :
    (railIter src lane dt diff r n).1.type = lane.type := by
  induction n with
  | zero => rfl
  | succ n ih => rw [railIter_succ, update_type]; exact ih

lemma rail_step_P {R : Type} (src : RandomSource R) (l : Lane)
    (dt diff : ℚ) (r : R) (hrail : l.type = LaneType.rail)
    (hidle : l.train_active = false)
    (hnext : (Lane.update src l dt diff r).1.train_active = false)
    (hprev : l.train_timer ≤ l.train_warning + dt ∨
      (l.train_timer - dt ≤ TRAIN_WARNING_TIME ∧ l.train_warning ≤ 0)) :
    (Lane.update src l dt diff r).1.train_timer ≤
      (Lane.update src l dt diff r).1.train_warning + dt := by
  rw [update_rail_idle src l dt diff r hrail hidle] at hnext ⊢
  dsimp only at hnext ⊢
  set c := cullObstacles l dt diff with hc
  have hct : c.train_timer = l.train_timer := rfl
  have hcw : c.train_warning = l.train_warning := rfl
  have hca : c.train_active = l.train_active := rfl
  have hns : ¬(c.train_timer - dt ≤ 0) := by
    intro hle
    have := (stepRailIdle_spawn c dt hle).1
    rw [hnext] at this
    simp at this
  rw [stepRailIdle_timer]
  by_cases harm : c.train_timer - dt ≤ TRAIN_WARNING_TIME ∧ c.train_warning ≤ 0
  · rw [stepRailIdle_warning_arm c dt hns harm]
    rcases harm with ⟨ha1, _⟩
    split_ifs with hcl
    · linarith
    · linarith
  · rw [stepRailIdle_warning_noarm c dt hns harm]
    rcases hprev with hP | harm'
    · rw [hct, hcw] at *
      split_ifs with hw hcl
      · linarith
      · linarith
      · push_neg at harm
        have := harm (by rw [hct] at hns ⊢; linarith)
        rw [hcw] at this
        linarith [not_lt.mp hw]
    · exact absurd (by rw [hct, hcw]; exact harm') harm

/-- C6 counterexample: with per-tick `dt` values 1, 0.2, 0.2 and difficulty 1,
the concrete idle railway lane `railLaneCE` (countdown 2.05, no warning) arms
its warning at the first tick, yet at the third tick the arming guard fires
again — and afterwards the warning timer is running again — while the train
has still not spawned at any of these ticks.  This refutes the claim that the
warning is armed exactly once and never re-armed before the train spawns. -/
theorem train_warning_rearm_counterexample :
    armsWarning railLaneCE 1 ∧
    railCE1.train_active = false ∧ 0 < railCE1.train_warning ∧
    railCE2.train_active = false ∧
    armsWarning railCE2 (1/5) ∧
    railCE3.train_active = false ∧ 0 < railCE3.train_warning := by
  have h1 : railCE1 = { railLaneCE with train_timer := 21/20, train_warning := 1/10 } := by
    rw [railCE1, update_rail_idle headSource railLaneCE 1 1 () rfl rfl]
    norm_num [stepRailIdle, warnDecay, spawnTrain, cullObstacles, railLaneCE,
      TRAIN_WARNING_TIME, Lane.mk.injEq]
  have h2 : railCE2 = { railLaneCE with train_timer := 17/20, train_warning := 0 } := by
    rw [railCE2, h1, update_rail_idle headSource _ (1/5) 1 () rfl rfl]
    norm_num [stepRailIdle, warnDecay, spawnTrain, cullObstacles, railLaneCE,
      TRAIN_WARNING_TIME, Lane.mk.injEq]
  have h3 : railCE3 = { railLaneCE with train_timer := 13/20, train_warning := 9/10 } := by
    rw [railCE3, h2, update_rail_idle headSource _ (1/5) 1 () rfl rfl]
    norm_num [stepRailIdle, warnDecay, spawnTrain, cullObstacles, railLaneCE,
      TRAIN_WARNING_TIME, Lane.mk.injEq]
  rw [h1, h2, h3]
  refine ⟨?_, rfl, by norm_num, rfl, ?_, rfl, by norm_num⟩
  · exact ⟨rfl, by norm_num [railLaneCE, TRAIN_WARNING_TIME], le_refl 0⟩
  · exact ⟨rfl, by norm_num [railLaneCE, TRAIN_WARNING_TIME], le_refl 0⟩

/-- C6 (amended): while a railway lane is idle the countdown decreases by
`dt` each tick; when it reaches zero (drops to or below it) the lane becomes
active with the warning cleared and the train placed twelve tiles off-screen
on the lane's current train direction; and — for a fixed per-tick `dt` — once
the warning guard has armed, the guard cannot fire a second time at any tick
at which the train has still not spawned: a re-fire forces the countdown to
expire (the train spawns) in that very tick. -/
theorem rail_warning_amended :
    (∀ {R : Type} (src : RandomSource R) (lane : Lane) (dt diff : ℚ) (r : R),
      lane.type = LaneType.rail → lane.train_active = false →
      (Lane.update src lane dt diff r).1.train_timer = lane.train_timer - dt) ∧
    (∀ {R : Type} (src : RandomSource R) (lane : Lane) (dt diff : ℚ) (r : R),
      lane.type = LaneType.rail → lane.train_active = false →
      lane.train_timer - dt ≤ 0 →
      (Lane.update src lane dt diff r).1.train_active = true ∧
      (Lane.update src lane dt diff r).1.train_warning = 0 ∧
      (Lane.update src lane dt diff r).1.train_x =
        (if lane.train_dir = 1 then -(TILE * 12) else SCREEN_W + TILE * 12)) ∧
    (∀ {R : Type} (src : RandomSource R) (lane : Lane) (dt diff : ℚ) (r : R)
      (i j : ℕ), lane.type = LaneType.rail → 0 < dt → i < j →
      (∀ k, k ≤ j → (railIter src lane dt diff r k).1.train_active = false) →
      armsWarning (railIter src lane dt diff r i).1 dt →
      armsWarning (railIter src lane dt diff r j).1 dt →
      (railIter src lane dt diff r j).1.train_timer - dt ≤ 0) := by
  refine ⟨?_, ?_, ?_⟩
  · intro R src lane dt diff r hrail hidle
    rw [update_rail_idle src lane dt diff r hrail hidle]
    exact stepRailIdle_timer _ dt
  · intro R src lane dt diff r hrail hidle hs
    rw [update_rail_idle src lane dt diff r hrail hidle]
    exact stepRailIdle_spawn _ dt hs
  · intro R src lane dt diff r i j hrail hdt hij hidleall harmi harmj
    by_contra hnotspawn
    -- the invariant: after the arming tick, timer ≤ warning + dt
    have hP : ∀ k, i + 1 ≤ k → k ≤ j →
        (railIter src lane dt diff r k).1.train_timer ≤
          (railIter src lane dt diff r k).1.train_warning + dt := by
      intro k hk1
      induction k, hk1 using Nat.le_induction with
      | base =>
        intro hkj
        rw [railIter_succ]
        refine rail_step_P src _ dt diff _ ?_ ?_ ?_ (Or.inr ⟨harmi.2.1, harmi.2.2⟩)
        · rw [railIter_type]; exact hrail
        · exact harmi.1
        · rw [← railIter_succ]; exact hidleall (i + 1) hkj
      | succ k hik ih =>
        intro hkj
        rw [railIter_succ]
        refine rail_step_P src _ dt diff _ ?_ ?_ ?_ ?_
        · rw [railIter_type]; exact hrail
        · exact hidleall k (by omega)
        · rw [← railIter_succ]; exact hidleall (k + 1) hkj
        · exact Or.inl (ih (by omega))
    have hPj := hP j (by omega) (le_refl j)
    have hwj := harmj.2.2
    linarith [hnotspawn]

/-- C6 amended witness: a concrete idle rail lane with countdown 1.65 and
constant `dt = 0.55`: the guard arms at tick 0 and fires again at tick 2, and
the theorem forces the countdown to expire at tick 2; the decrement and the
spawn-placement parts instantiated concretely as well. -/
theorem rail_warning_amended_witness :
    (Lane.update headSource railLaneCE 1 1 ()).1.train_timer =
      railLaneCE.train_timer - 1 ∧
    ((Lane.update headSource { railLaneCE with train_timer := 1/2 } 1 1 ()).1.train_active = true ∧
      (Lane.update headSource { railLaneCE with train_timer := 1/2 } 1 1 ()).1.train_warning = 0 ∧
      (Lane.update headSource { railLaneCE with train_timer := 1/2 } 1 1 ()).1.train_x =
        (if ({ railLaneCE with train_timer := 1/2 } : Lane).train_dir = 1
         then -(TILE * 12) else SCREEN_W + TILE * 12)) ∧
    (railIter headSource railLaneW (11/20) 1 () 2).1.train_timer - 11/20 ≤ 0 := by
  have e1 : railIter headSource railLaneW (11/20) 1 () 1 =
      ({ railLaneW with train_timer := 11/10, train_warning := 11/20 }, ()) := by
    rw [show railIter headSource railLaneW (11/20) 1 () 1 =
      Lane.update headSource railLaneW (11/20) 1 () from rfl]
    rw [update_rail_idle headSource railLaneW (11/20) 1 () rfl rfl]
    norm_num [stepRailIdle, warnDecay, spawnTrain, cullObstacles, railLaneW, railLaneCE,
      TRAIN_WARNING_TIME, Lane.mk.injEq]
  have e2 : railIter headSource railLaneW (11/20) 1 () 2 =
      ({ railLaneW with train_timer := 11/20, train_warning := 0 }, ()) := by
    rw [railIter_succ, e1]
    dsimp only
    rw [update_rail_idle headSource _ (11/20) 1 () rfl rfl]
    norm_num [stepRailIdle, warnDecay, spawnTrain, cullObstacles, railLaneW, railLaneCE,
      TRAIN_WARNING_TIME, Lane.mk.injEq]
  refine ⟨rail_warning_amended.1 headSource railLaneCE 1 1 () rfl rfl,
    rail_warning_amended.2.1 headSource _ 1 1 () rfl rfl (by norm_num [railLaneCE]),
    rail_warning_amended.2.2 headSource railLaneW (11/20) 1 () 0 2 rfl
      (by norm_num) (by omega) ?hidle ?harm0 ?harm2⟩
  case hidle =>
    intro k hk
    interval_cases k
    · rfl
    · rw [e1]
      rfl
    · rw [e2]
      rfl
  case harm0 =>
    exact ⟨rfl, by norm_num [railIter, railLaneW, railLaneCE, TRAIN_WARNING_TIME],
      le_refl 0⟩
  case harm2 =>
    rw [armsWarning, e2]
    refine ⟨rfl, by norm_num [railLaneW, railLaneCE, TRAIN_WARNING_TIME], ?_⟩
    norm_num

/-! ### Grass generation lemmas -/

lemma mem_intRange (k a b : ℤ) : k ∈ intRange a b ↔ a ≤ k ∧ k < b := by
  unfold intRange
  constructor
  · intro hk
    obtain ⟨n, hn, hkk⟩ := List.mem_map.mp hk
    rw [List.mem_range] at hn
    subst hkk
    omega
  · intro h
    refine List.mem_map.mpr ⟨(k - a).toNat, ?_, ?_⟩
    · rw [List.mem_range]
      omega
    · omega

lemma mem_gridRange (k : ℤ) : k ∈ gridRange ↔ 0 ≤ k ∧ k < GRID_W := by
  unfold gridRange gridList
  rw [List.mem_toFinset, mem_intRange]

lemma addTrees_card_le (cs : List ℤ) (t : ℤ) (b : Finset ℤ)
    (h : b.card ≤ 8) : (addTrees t cs b).card ≤ 8 := by
  induction cs generalizing b with
  | nil => exact h
  | cons c cs ih =>
    unfold addTrees
    split_ifs with h1 h2
    · exact h
    · exact h
    · refine ih _ ?_
      have hins := Finset.card_insert_le c b
      have hg : GRID_W = 11 := rfl
      omega

lemma initGrass_card {R : Type} (src : RandomSource R) (row : ℤ)
    (prevOpen : Option (Finset ℤ)) (r : R) (hrow : START_SAFE_ROWS ≤ row) :
    3 ≤ (gridRange \ (initGrass src row prevOpen r).1).card := by
  unfold initGrass
  rw [if_neg (not_lt.mpr hrow)]
  dsimp only
  have hsub : (addTrees (src.randint 2 5 (src.choiceInt [2, 3]
      (grassCenterDraw src prevOpen r).2).2).1
      (src.shuffleInt (gridList.filter (fun col => col ∉
        grassCorridor (grassCenterDraw src prevOpen r).1
          (src.choiceInt [2, 3] (grassCenterDraw src prevOpen r).2).1))
        (src.randint 2 5 (src.choiceInt [2, 3]
          (grassCenterDraw src prevOpen r).2).2).2).1 ∅).card ≤ 8 :=
    addTrees_card_le _ _ _ (by simp)
  have hsub2 := Finset.card_le_card
    (Finset.sdiff_subset (s := addTrees (src.randint 2 5 (src.choiceInt [2, 3]
      (grassCenterDraw src prevOpen r).2).2).1
      (src.shuffleInt (gridList.filter (fun col => col ∉
        grassCorridor (grassCenterDraw src prevOpen r).1
          (src.choiceInt [2, 3] (grassCenterDraw src prevOpen r).2).1))
        (src.randint 2 5 (src.choiceInt [2, 3]
          (grassCenterDraw src prevOpen r).2).2).2).1 ∅)
      (t := grassCorridor (grassCenterDraw src prevOpen r).1
        (src.choiceInt [2, 3] (grassCenterDraw src prevOpen r).2).1))
  have hgrid : gridRange.card = 11 := by decide
  have hle := Finset.card_le_card_sdiff_add_card (s := gridRange)
    (t := addTrees (src.randint 2 5 (src.choiceInt [2, 3]
      (grassCenterDraw src prevOpen r).2).2).1
      (src.shuffleInt (gridList.filter (fun col => col ∉
        grassCorridor (grassCenterDraw src prevOpen r).1
          (src.choiceInt [2, 3] (grassCenterDraw src prevOpen r).2).1))
        (src.randint 2 5 (src.choiceInt [2, 3]
          (grassCenterDraw src prevOpen r).2).2).2).1 ∅ \
      grassCorridor (grassCenterDraw src prevOpen r).1
        (src.choiceInt [2, 3] (grassCenterDraw src prevOpen r).2).1)
  omega

lemma grassCenterDraw_mem {R : Type} (src : RandomSource R) (s : Finset ℤ)
    (r : R) (hs : s.Nonempty) : (grassCenterDraw src (some s) r).1 ∈ s := by
  unfold grassCenterDraw
  dsimp only
  rw [if_pos hs]
  have hne : s.sort (· ≤ ·) ≠ [] := by
    obtain ⟨a, ha⟩ := hs
    exact List.ne_nil_of_mem ((Finset.mem_sort _).mpr ha)
  exact (Finset.mem_sort _).mp (src.choiceInt_mem _ r hne)

lemma initGrass_disjoint {R : Type} (src : RandomSource R) (row : ℤ)
    (prevOpen : Option (Finset ℤ)) (r : R) (hrow : START_SAFE_ROWS ≤ row) :
    ∃ c cw : ℤ,
      (∀ s, prevOpen = some s → s.Nonempty → c ∈ s) ∧
      cw ∈ ([2, 3] : List ℤ) ∧
      Disjoint (grassCorridor c cw) (initGrass src row prevOpen r).1 := by
  unfold initGrass
  rw [if_neg (not_lt.mpr hrow)]
  dsimp only
  refine ⟨(grassCenterDraw src prevOpen r).1,
    (src.choiceInt [2, 3] (grassCenterDraw src prevOpen r).2).1, ?_, ?_, ?_⟩
  · intro s hs hsne
    rw [hs]
    exact grassCenterDraw_mem src s r hsne
  · exact src.choiceInt_mem [2, 3] _ (by simp)
  · exact Finset.sdiff_disjoint.symm

lemma laneInit_grass_shape {R : Type} (src : RandomSource R) (row : ℤ)
    (prevOpen : Option (Finset ℤ)) (r : R) :
    ∃ r' : R,
      (Lane.init src row LaneType.grass prevOpen r).1.type = LaneType.grass ∧
      (Lane.init src row LaneType.grass prevOpen r).1.blocked_cols =
        (initGrass src row prevOpen r').1 := by
  unfold Lane.init
  dsimp only
  exact ⟨_, rfl, rfl⟩

/-- C3: every ground lane generated beyond the safe zone keeps at least 3
open columns, and the drawn corridor — whose center comes from the previous
row's open columns whenever that set is nonempty — is disjoint from the
blocked set, regardless of the random source and the previous row's open
columns. -/
theorem grass_lane_open_invariant {R : Type} (src : RandomSource R) (row : ℤ)
    (prevOpen : Option (Finset ℤ)) (r : R) (hrow : START_SAFE_ROWS ≤ row) :
    3 ≤ (Lane.init src row LaneType.grass prevOpen r).1.open_cols.card ∧
    ∃ c cw : ℤ,
      (∀ s, prevOpen = some s → s.Nonempty → c ∈ s) ∧
      cw ∈ ([2, 3] : List ℤ) ∧
      Disjoint (grassCorridor c cw)
        (Lane.init src row LaneType.grass prevOpen r).1.blocked_cols := by
  obtain ⟨r', hty, hbl⟩ := laneInit_grass_shape src row prevOpen r
  constructor
  · rw [Lane.open_cols, if_neg (by simp [hty]), hbl]
    exact initGrass_card src row prevOpen r' hrow
  · obtain ⟨c, cw, hc, hcw, hdisj⟩ := initGrass_disjoint src row prevOpen r' hrow
    exact ⟨c, cw, hc, hcw, by rw [hbl]; exact hdisj⟩

/-- C3 witness: a concrete beyond-safe-zone grass lane generated with the
previous row open only at column 4. -/
theorem grass_lane_open_invariant_witness :
    3 ≤ (Lane.init headSource 6 LaneType.grass (some {4}) ()).1.open_cols.card ∧
    ∃ c cw : ℤ,
      (∀ s, (some ({4} : Finset ℤ) : Option (Finset ℤ)) = some s →
        s.Nonempty → c ∈ s) ∧
      cw ∈ ([2, 3] : List ℤ) ∧
      Disjoint (grassCorridor c cw)
        (Lane.init headSource 6 LaneType.grass (some {4}) ()).1.blocked_cols :=
  grass_lane_open_invariant headSource 6 (some {4}) () (by decide)

/-! ### Lane-at / ensure-lane lemmas -/

lemma laneAt_present {R : Type} (src : RandomSource R) (w : World) (row : ℤ)
    (r : R) (l : Lane) (h : w.lanes row = some l) :
    laneAt src w row r = (l, w, r) := by
  unfold laneAt ensureLane
  rw [h]
  dsimp only
  rw [h]
  rfl

/-- Evaluates `Finset.sort` on a concrete set: a sorted list carrying the
same multiset of elements is the sort. -/
lemma sort_eval {s : Finset ℤ} {l : List ℤ} (hval : s.1 = (l : Multiset ℤ))
    (hsorted : List.Sorted (· ≤ ·) l) : s.sort (· ≤ ·) = l :=
  List.eq_of_perm_of_sorted
    (Multiset.coe_eq_coe.mp (by rw [Finset.sort_eq, hval]))
    (Finset.sort_sorted _ _) hsorted

lemma chooseNextLaneType_congr {R : Type} (src : RandomSource R)
    (w₁ w₂ : World) (row : ℤ) (r : R)
    (h1 : Option.map Lane.type (w₁.lanes (row - 1)) =
      Option.map Lane.type (w₂.lanes (row - 1)))
    (h2 : Option.map Lane.type (w₁.lanes (row - 2)) =
      Option.map Lane.type (w₂.lanes (row - 2)))
    (h3 : Option.map Lane.type (w₁.lanes (row - 3)) =
      Option.map Lane.type (w₂.lanes (row - 3))) :
    chooseNextLaneType src w₁ row r = chooseNextLaneType src w₂ row r := by
  unfold chooseNextLaneType
  rw [show ([1, 2, 3] : List ℤ).filterMap
      (fun i => Option.map Lane.type (w₁.lanes (row - i))) =
    ([1, 2, 3] : List ℤ).filterMap
      (fun i => Option.map Lane.type (w₂.lanes (row - i))) from by
    simp only [List.filterMap_cons, List.filterMap_nil]
    rw [h1, h2, h3]]

/-- C8 counterexample: in a world whose only lane is the grass `row6Lane`
with open columns `{2,…,10}`, generating row 7 through `laneAt` (as the
Player does) yields blocked columns `{2, 3}` and an open corridor at columns
0 and 1 — columns that are not open in row 6 — whereas constructing the same
lane with the previous row's open-column set (as the claim asserts `laneAt`
does) yields blocked columns `{0, 1}`.  So `laneAt` does not use the previous
row's open columns and the corridor center is not chosen from them. -/
theorem lane_at_prev_open_counterexample :
    (laneAt lastSource worldW8 7 ()).1.blocked_cols = {2, 3} ∧
    (Lane.init lastSource 7 LaneType.grass (some row6Lane.open_cols) ()).1.blocked_cols
      = {0, 1} ∧
    (laneAt lastSource worldW8 7 ()).1.blocked_cols ≠
      (Lane.init lastSource 7 LaneType.grass (some row6Lane.open_cols) ()).1.blocked_cols ∧
    (0 : ℤ) ∈ (laneAt lastSource worldW8 7 ()).1.open_cols ∧
    (0 : ℤ) ∉ row6Lane.open_cols := by
  have hch : chooseNextLaneType lastSource worldW8 7 () = (LaneType.grass, ()) := by
    unfold chooseNextLaneType
    norm_num [chooseNextLaneType.weightWalk, worldW8, row6Lane, lastSource,
      List.filterMap_cons, List.filterMap_nil]
  have hlaneAt : (laneAt lastSource worldW8 7 ()).1 =
      (Lane.init lastSource 7 LaneType.grass none ()).1 := by
    unfold laneAt ensureLane
    rw [show worldW8.lanes 7 = none from rfl]
    dsimp only
    rw [hch]
    dsimp only
    simp
  rw [hlaneAt]
  have hsort : (row6Lane.open_cols.sort (· ≤ ·)) = [2, 3, 4, 5, 6, 7, 8, 9, 10] :=
    sort_eval (by decide) (by decide)
  have hc : grassCenterDraw lastSource (some row6Lane.open_cols) () = (10, ()) := by
    unfold grassCenterDraw
    dsimp only
    rw [if_pos (show row6Lane.open_cols.Nonempty by decide)]
    show ((row6Lane.open_cols.sort (· ≤ ·)).reverse.headD 0, ()) = (10, ())
    rw [hsort]
    rfl
  have h2 : (Lane.init lastSource 7 LaneType.grass
      (some row6Lane.open_cols) ()).1.blocked_cols = {0, 1} := by
    obtain ⟨r', hty, hbl⟩ :=
      laneInit_grass_shape lastSource 7 (some row6Lane.open_cols) ()
    rw [hbl]
    unfold initGrass
    rw [if_neg (by decide)]
    dsimp only
    cases r'
    rw [hc]
    decide
  refine ⟨by decide, h2, ?_, by decide, by decide⟩
  rw [h2]
  decide

/-- C8 (amended): `laneAt` is idempotent once the lane exists; a lane
generated on demand through `laneAt` receives no previous-row open-column
information — its result depends on the neighboring rows only through their
lane kinds — while a ground lane constructed with a nonempty previous open
set (as the world's generate-ahead path does) keeps at least one column open
that was open in the previous row (corridor connectivity). -/
theorem ensure_lane_amended :
    (∀ {R : Type} (src : RandomSource R) (w : World) (row : ℤ) (r : R)
      (l : Lane), w.lanes row = some l → laneAt src w row r = (l, w, r)) ∧
    (∀ {R : Type} (src : RandomSource R) (w₁ w₂ : World) (row : ℤ) (r : R),
      w₁.lanes row = none → w₂.lanes row = none →
      Option.map Lane.type (w₁.lanes (row - 1)) =
        Option.map Lane.type (w₂.lanes (row - 1)) →
      Option.map Lane.type (w₁.lanes (row - 2)) =
        Option.map Lane.type (w₂.lanes (row - 2)) →
      Option.map Lane.type (w₁.lanes (row - 3)) =
        Option.map Lane.type (w₂.lanes (row - 3)) →
      (laneAt src w₁ row r).1 = (laneAt src w₂ row r).1) ∧
    (∀ {R : Type} (src : RandomSource R) (row : ℤ) (s : Finset ℤ) (r : R),
      START_SAFE_ROWS ≤ row → s.Nonempty → s ⊆ gridRange →
      ((Lane.init src row LaneType.grass (some s) r).1.open_cols ∩ s).Nonempty) := by
  refine ⟨?_, ?_, ?_⟩
  · intro R src w row r l h
    exact laneAt_present src w row r l h
  · intro R src w₁ w₂ row r hn1 hn2 h1 h2 h3
    unfold laneAt ensureLane
    rw [hn1, hn2]
    dsimp only
    rw [chooseNextLaneType_congr src w₁ w₂ row r h1 h2 h3]
    simp
  · intro R src row s r hrow hsne hsub
    obtain ⟨r', hty, hbl⟩ := laneInit_grass_shape src row (some s) r
    rw [Lane.open_cols, if_neg (by simp [hty]), hbl]
    unfold initGrass
    rw [if_neg (not_lt.mpr hrow)]
    dsimp only
    set c := (grassCenterDraw src (some s) r').1 with hcdef
    have hcs : c ∈ s := grassCenterDraw_mem src s r' hsne
    have hcg : 0 ≤ c ∧ c < GRID_W := (mem_gridRange c).mp (hsub hcs)
    have hcw := src.choiceInt_mem [2, 3] (grassCenterDraw src (some s) r').2 (by simp)
    refine ⟨c, Finset.mem_inter.mpr ⟨Finset.mem_sdiff.mpr ⟨?_, ?_⟩, hcs⟩⟩
    · exact (mem_gridRange c).mpr hcg
    · rw [Finset.mem_sdiff]
      intro hfalse
      refine hfalse.2 ?_
      unfold grassCorridor
      rw [List.mem_toFinset]
      refine List.mem_map.mpr ⟨0, ?_, ?_⟩
      · rw [mem_intRange]
        rcases List.mem_cons.mp hcw with he | hm
        · rw [he]; norm_num
        · rcases List.mem_singleton.mp hm with he
          rw [he]; norm_num
      · have hg : GRID_W = 11 := rfl
        omega

/-- C8 witness: idempotence at a present row; kind-only dependence for two
worlds sharing only lane kinds; corridor connectivity at a concrete
previous-row open set. -/
theorem ensure_lane_amended_witness :
    laneAt headSource worldW4 2 () = (grassLaneW, worldW4, ()) ∧
    (laneAt lastSource worldW8 7 ()).1 = (laneAt lastSource worldW8b 7 ()).1 ∧
    ((Lane.init headSource 6 LaneType.grass (some {4}) ()).1.open_cols ∩
      ({4} : Finset ℤ)).Nonempty :=
  ⟨ensure_lane_amended.1 headSource worldW4 2 () grassLaneW (by decide),
   ensure_lane_amended.2.1 lastSource worldW8 worldW8b 7 () (by decide) (by decide)
     (by decide) (by decide) (by decide),
   ensure_lane_amended.2.2 headSource 6 {4} () (by decide) (by decide) (by decide)⟩

/-! ### World row-interval lemmas -/

lemma intRange_nil {a b : ℤ} (h : b ≤ a) : intRange a b = [] := by
  unfold intRange
  rw [show (b - a).toNat = 0 by omega]
  rfl

lemma intRange_cons {a b : ℤ} (h : a < b) :
    intRange a b = a :: intRange (a + 1) b := by
  unfold intRange
  rw [show (b - a).toNat = (b - (a + 1)).toNat + 1 by omega,
    List.range_succ_eq_map]
  simp only [List.map_cons, List.map_map]
  congr 1
  · norm_num
  · apply List.map_congr_left
    intro n _
    simp only [Function.comp_apply]
    push_cast
    ring

lemma intRange_sorted (a b : ℤ) : List.Sorted (· < ·) (intRange a b) := by
  unfold intRange
  exact List.Pairwise.map _ (fun m n h => by omega) (List.sorted_lt_range _)

lemma ensureLane_isSome {R : Type} (src : RandomSource R) (w : World)
    (row : ℤ) (f : Option LaneType) (po : Option (Finset ℤ)) (r : R) (k : ℤ) :
    ((ensureLane src w row f po r).1.lanes k).isSome = true ↔
      (w.lanes k).isSome = true ∨ k = row := by
  unfold ensureLane
  cases h : w.lanes row with
  | some l =>
    dsimp only
    constructor
    · exact fun hk => Or.inl hk
    · rintro (hk | rfl)
      · exact hk
      · simp [h]
  | none =>
    dsimp only
    by_cases hk : k = row
    · simp [hk]
    · simp [hk]

lemma ensureLane_max_of_none {R : Type} (src : RandomSource R) (w : World)
    (row : ℤ) (f : Option LaneType) (po : Option (Finset ℤ)) (r : R)
    (h : w.lanes row = none) :
    (ensureLane src w row f po r).1.max_generated_row =
      max w.max_generated_row row := by
  unfold ensureLane
  rw [h]

lemma ensureLane_max_le {R : Type} (src : RandomSource R) (w : World)
    (row : ℤ) (f : Option LaneType) (po : Option (Finset ℤ)) (r : R) :
    w.max_generated_row ≤ (ensureLane src w row f po r).1.max_generated_row := by
  unfold ensureLane
  cases h : w.lanes row with
  | some l => exact le_refl _
  | none => exact le_max_left _ _

lemma generateRows_max_le {R : Type} (src : RandomSource R) (rows : List ℤ) :
    ∀ (w : World) (r : R),
      w.max_generated_row ≤ (generateRows src rows w r).1.max_generated_row := by
  induction rows with
  | nil => intro w r; exact le_refl _
  | cons row rest ih =>
    intro w r
    unfold generateRows
    dsimp only
    exact le_trans (ensureLane_max_le src w row none (some _) r) (ih _ _)

/-- The generation loop over the contiguous ramp of missing rows extends a
contiguous world to a contiguous world with the new highest row. -/
lemma generateRows_ramp {R : Type} (src : RandomSource R) :
    ∀ (n : ℕ) (w : World) (r : R) (t lo : ℤ),
      n = (t - w.max_generated_row).toNat →
      0 ≤ lo → lo ≤ w.max_generated_row + 1 →
      (∀ k : ℤ, (w.lanes k).isSome = true ↔
        lo ≤ k ∧ k ≤ w.max_generated_row) →
      (generateRows src (intRange (w.max_generated_row + 1) (t + 1)) w
          r).1.max_generated_row = max w.max_generated_row t ∧
        ∀ k : ℤ,
          ((generateRows src (intRange (w.max_generated_row + 1) (t + 1)) w
              r).1.lanes k).isSome = true ↔
            lo ≤ k ∧ k ≤ max w.max_generated_row t := by
  intro n
  induction n with
  | zero =>
    intro w r t lo hn hlo0 hlo1 hiff
    have ht : t ≤ w.max_generated_row := by omega
    rw [intRange_nil (by omega)]
    refine ⟨?_, ?_⟩
    · show w.max_generated_row = max w.max_generated_row t
      omega
    · intro k
      show (w.lanes k).isSome = true ↔ _
      rw [hiff k]
      omega
  | succ n ih =>
    intro w r t lo hn hlo0 hlo1 hiff
    have ht : w.max_generated_row < t := by omega
    rw [intRange_cons (by omega)]
    unfold generateRows
    dsimp only
    have hnone : w.lanes (w.max_generated_row + 1) = none := by
      cases hcase : w.lanes (w.max_generated_row + 1) with
      | none => rfl
      | some l =>
        exfalso
        have h1 := (hiff (w.max_generated_row + 1)).mp (by rw [hcase]; rfl)
        omega
    have hmax' :
        (ensureLane src w (w.max_generated_row + 1) none
          (some (match w.lanes (w.max_generated_row + 1 - 1) with
            | some l => l.open_cols
            | none => gridRange)) r).1.max_generated_row =
          w.max_generated_row + 1 := by
      rw [ensureLane_max_of_none src w _ _ _ _ hnone]
      omega
    have hiff' : ∀ k : ℤ,
        ((ensureLane src w (w.max_generated_row + 1) none
          (some (match w.lanes (w.max_generated_row + 1 - 1) with
            | some l => l.open_cols
            | none => gridRange)) r).1.lanes k).isSome = true ↔
          lo ≤ k ∧ k ≤ w.max_generated_row + 1 := by
      intro k
      rw [ensureLane_isSome, hiff k]
      omega
    have hres := ih
      (ensureLane src w (w.max_generated_row + 1) none
        (some (match w.lanes (w.max_generated_row + 1 - 1) with
          | some l => l.open_cols
          | none => gridRange)) r).1
      (ensureLane src w (w.max_generated_row + 1) none
        (some (match w.lanes (w.max_generated_row + 1 - 1) with
          | some l => l.open_cols
          | none => gridRange)) r).2
      t lo (by rw [hmax']; omega) hlo0 (by rw [hmax']; omega)
      (fun k => by rw [hiff' k, hmax'])
    rw [hmax'] at hres
    refine ⟨?_, ?_⟩
    · rw [hres.1]
      omega
    · intro k
      rw [hres.2 k]
      omega

lemma generateUpTo_interval {R : Type} (src : RandomSource R) (w : World)
    (t : ℤ) (r : R) (lo : ℤ) (hlo0 : 0 ≤ lo)
    (hlo1 : lo ≤ w.max_generated_row + 1)
    (hiff : ∀ k : ℤ, (w.lanes k).isSome = true ↔
      lo ≤ k ∧ k ≤ w.max_generated_row) :
    (generateUpTo src w t r).1.max_generated_row =
        max w.max_generated_row t ∧
      ∀ k : ℤ, ((generateUpTo src w t r).1.lanes k).isSome = true ↔
        lo ≤ k ∧ k ≤ max w.max_generated_row t := by
  unfold generateUpTo
  exact generateRows_ramp src (t - w.max_generated_row).toNat w r t lo rfl
    hlo0 hlo1 hiff

lemma updateWindow_isSome {R : Type} (src : RandomSource R) (rows : List ℤ) :
    ∀ (w : World) (dt diff : ℚ) (r : R) (k : ℤ),
      ((updateWindow src rows w dt diff r).1.lanes k).isSome =
        (w.lanes k).isSome := by
  induction rows with
  | nil => intro w dt diff r k; rfl
  | cons row rest ih =>
    intro w dt diff r k
    unfold updateWindow
    cases h : w.lanes row with
    | none =>
      dsimp only
      exact ih w dt diff r k
    | some l =>
      dsimp only
      rw [ih]
      dsimp only
      by_cases hk : k = row
      · subst hk
        rw [if_pos rfl, h]
        rfl
      · rw [if_neg hk]

lemma updateWindow_max {R : Type} (src : RandomSource R) (rows : List ℤ) :
    ∀ (w : World) (dt diff : ℚ) (r : R),
      (updateWindow src rows w dt diff r).1.max_generated_row =
        w.max_generated_row := by
  induction rows with
  | nil => intro w dt diff r; rfl
  | cons row rest ih =>
    intro w dt diff r
    unfold updateWindow
    cases h : w.lanes row with
    | none =>
      dsimp only
      exact ih w dt diff r
    | some l =>
      dsimp only
      rw [ih]

lemma pruneLanes_isSome (w : World) (c k : ℤ) :
    ((pruneLanes w c).lanes k).isSome = true ↔
      c ≤ k ∧ (w.lanes k).isSome = true := by
  unfold pruneLanes
  dsimp only
  by_cases hk : k < c
  · rw [if_pos hk]
    constructor
    · intro hf
      exact absurd hf (by simp)
    · rintro ⟨h1, -⟩
      omega
  · rw [if_neg hk]
    constructor
    · intro hs
      exact ⟨by omega, hs⟩
    · exact fun h => h.2

lemma pruneLanes_max (w : World) (c : ℤ) :
    (pruneLanes w c).max_generated_row = w.max_generated_row := rfl

lemma initSafe_isSome {R : Type} (src : RandomSource R) :
    ∀ (n : ℕ) (r : R) (k : ℤ),
      ((initSafe src n r).1.lanes k).isSome = true ↔
        0 ≤ k ∧ k ≤ (n : ℤ) - 1 := by
  intro n
  induction n with
  | zero =>
    intro r k
    unfold initSafe
    dsimp only
    constructor
    · intro hf
      exact absurd hf (by simp)
    · rintro ⟨h1, h2⟩
      omega
  | succ n ih =>
    intro r k
    unfold initSafe
    dsimp only
    rw [ensureLane_isSome, ih]
    push_cast
    omega

lemma World_init_interval {R : Type} (src : RandomSource R) (r : R) :
    (World.init src r).1.max_generated_row =
        START_SAFE_ROWS + LANE_LOOKAHEAD ∧
      ∀ k : ℤ, ((World.init src r).1.lanes k).isSome = true ↔
        0 ≤ k ∧ k ≤ START_SAFE_ROWS + LANE_LOOKAHEAD := by
  unfold World.init
  dsimp only
  have hs : START_SAFE_ROWS = 6 := rfl
  have hL : LANE_LOOKAHEAD = 55 := rfl
  have hbase : ∀ k : ℤ,
      (({ (initSafe src START_SAFE_ROWS.toNat r).1 with
          max_generated_row := START_SAFE_ROWS - 1 } : World).lanes k).isSome
          = true ↔
        0 ≤ k ∧ k ≤ ({ (initSafe src START_SAFE_ROWS.toNat r).1 with
          max_generated_row := START_SAFE_ROWS - 1 } : World).max_generated_row := by
    intro k
    dsimp only
    rw [initSafe_isSome]
    have hc : ((START_SAFE_ROWS.toNat : ℕ) : ℤ) = 6 := rfl
    omega
  have h := generateUpTo_interval src
    { (initSafe src START_SAFE_ROWS.toNat r).1 with
      max_generated_row := START_SAFE_ROWS - 1 }
    (START_SAFE_ROWS + LANE_LOOKAHEAD)
    (initSafe src START_SAFE_ROWS.toNat r).2.2 0 le_rfl (by dsimp only; omega)
    hbase
  refine ⟨?_, ?_⟩
  · rw [h.1]
    dsimp only
    omega
  · intro k
    rw [h.2 k]
    dsimp only
    omega

lemma World_update_interval {R : Type} (src : RandomSource R) (w : World)
    (dt : ℚ) (cam : ℤ) (diff : ℚ) (r : R) (h : RowInterval w) :
    RowInterval (World.update src w dt cam diff r).1 := by
  obtain ⟨lo, hlo0, hlo1, hiff⟩ := h
  unfold World.update
  dsimp only
  obtain ⟨hmax, hpres⟩ :=
    generateUpTo_interval src w (cam + LANE_LOOKAHEAD) r lo hlo0 hlo1 hiff
  have hm :
      (pruneLanes (updateWindow src
        (intRange (max 0 (cam - 10)) (cam + LANE_LOOKAHEAD + 1))
        (generateUpTo src w (cam + LANE_LOOKAHEAD) r).1 dt diff
        (generateUpTo src w (cam + LANE_LOOKAHEAD) r).2).1
        (cam - 30)).max_generated_row =
      max w.max_generated_row (cam + LANE_LOOKAHEAD) := by
    rw [pruneLanes_max, updateWindow_max, hmax]
  have hL : LANE_LOOKAHEAD = 55 := rfl
  refine ⟨max lo (cam - 30), le_trans hlo0 (le_max_left _ _), ?_, ?_⟩
  · rw [hm]
    omega
  · intro k
    rw [hm, pruneLanes_isSome, updateWindow_isSome, hpres k]
    omega

lemma World_update_lanes_pruned {R : Type} (src : RandomSource R) (w : World)
    (dt : ℚ) (cam : ℤ) (diff : ℚ) (r : R) (k : ℤ) (hk : k < cam - 30) :
    (World.update src w dt cam diff r).1.lanes k = none := by
  unfold World.update
  dsimp only
  unfold pruneLanes
  dsimp only
  rw [if_pos hk]

lemma World_update_max_ge {R : Type} (src : RandomSource R) (w : World)
    (dt : ℚ) (cam : ℤ) (diff : ℚ) (r : R) :
    w.max_generated_row ≤
      (World.update src w dt cam diff r).1.max_generated_row := by
  unfold World.update
  dsimp only
  rw [pruneLanes_max, updateWindow_max]
  unfold generateUpTo
  exact generateRows_max_le src _ w r

/-- C7 counterexample: after one `World.update` with camera row 31 on a
freshly initialised world, row 0 is pruned away while the highest generated
row is at least 61, so "every row from 0 up to the highest generated row is
present" fails in a reachable state. -/
theorem world_rows_pruned_counterexample :
    ¬ (∀ k : ℤ, 0 ≤ k →
        k ≤ (World.update headSource (World.init headSource ()).1
            (1/60) 31 1 ()).1.max_generated_row →
        ((World.update headSource (World.init headSource ()).1
            (1/60) 31 1 ()).1.lanes k).isSome = true) := by
  intro hall
  have hs : START_SAFE_ROWS = 6 := rfl
  have hL : LANE_LOOKAHEAD = 55 := rfl
  have h1 := (World_init_interval headSource ()).1
  have h2 := World_update_max_ge headSource (World.init headSource ()).1
    (1/60) 31 1 ()
  rw [h1] at h2
  have h0 := hall 0 le_rfl (by omega)
  rw [World_update_lanes_pruned headSource (World.init headSource ()).1
    (1/60) 31 1 () 0 (by omega)] at h0
  exact absurd h0 (by simp)

/-- C7 (amended): a freshly initialised world is contiguous — its present
rows are exactly 0 up to the highest generated row, which is the safe-zone
height plus the lookahead; `World.update` preserves contiguity of the
present-row interval (whose lower end can be pushed up to thirty rows behind
the camera by the pruning pass, so it need not stay 0); and the generation
loop visits exactly the ramp of missing rows in strictly increasing order. -/
theorem world_row_interval_amended :
    (∀ {R : Type} (src : RandomSource R) (r : R),
      RowInterval (World.init src r).1 ∧
      (World.init src r).1.max_generated_row =
        START_SAFE_ROWS + LANE_LOOKAHEAD) ∧
    (∀ {R : Type} (src : RandomSource R) (w : World) (dt : ℚ) (cam : ℤ)
      (diff : ℚ) (r : R), RowInterval w →
      RowInterval (World.update src w dt cam diff r).1) ∧
    (∀ {R : Type} (src : RandomSource R) (w : World) (t : ℤ) (r : R),
      generateUpTo src w t r =
        generateRows src (intRange (w.max_generated_row + 1) (t + 1)) w r ∧
      List.Sorted (· < ·) (intRange (w.max_generated_row + 1) (t + 1))) := by
  refine ⟨?_, ?_, ?_⟩
  · intro R src r
    obtain ⟨hmax, hpres⟩ := World_init_interval src r
    refine ⟨⟨0, le_rfl, ?_, ?_⟩, hmax⟩
    · rw [hmax]
      have hs : START_SAFE_ROWS = 6 := rfl
      have hL : LANE_LOOKAHEAD = 55 := rfl
      omega
    · intro k
      rw [hpres k, hmax]
  · intro R src w dt cam diff r h
    exact World_update_interval src w dt cam diff r h
  · intro R src w t r
    exact ⟨rfl, intRange_sorted _ _⟩

/-- C7 witness: the initial world is a contiguous interval, one update step
keeps it one, and a concrete generation ramp is strictly increasing. -/
theorem world_row_interval_amended_witness :
    RowInterval (World.init headSource ()).1 ∧
    RowInterval (World.update headSource (World.init headSource ()).1
      (1/60) 3 1 ()).1 ∧
    List.Sorted (· < ·)
      (intRange ((World.init headSource ()).1.max_generated_row + 1) 63) :=
  ⟨(world_row_interval_amended.1 headSource ()).1,
   world_row_interval_amended.2.1 headSource (World.init headSource ()).1
     (1/60) 3 1 () (world_row_interval_amended.1 headSource ()).1,
   (world_row_interval_amended.2.2 headSource (World.init headSource ()).1
     62 ()).2⟩

end Crossy
